import Mathlib

/-!
Shallow embedding of the ArtMint marketplace's settlement, ledger, offer and
collection-index logic, translated from the TypeScript source:

* wallet ledger: `src/lib/wallet.ts` (`verifyLedgerIntegrity`,
  `calculateBalanceFromTransactions`) and `src/lib/firebase-admin.ts`
  (`addServerTransaction`, `addUserAsset`, `removeUserAsset`, offer helpers);
* asset store client: `src/lib/contentstack-am2.ts` (`updateAssetMetadata`,
  `addAssetOwner`, `getAssetUsingAMV2API`);
* route handlers: `POST /api/purchase/webhook`, `POST /api/purchase/process`,
  `POST /api/purchase/checkout`, `PUT /api/assets/[assetUid]/offers/[offerId]`.

External stores (Firestore documents, the Contentstack asset space, the Stripe
session registry) are modelled as explicit state threaded through the handlers.
JavaScript numbers are modelled as `ℚ`; ISO timestamp strings are modelled as
`Nat` instants (only their ordering and identity matter to the verified code);
truthiness of possibly-missing strings is modelled explicitly.
-/

namespace ArtMint

/-- Key-value document store (Firestore collection / asset space). -/
def Store (α : Type) : Type := String → Option α

/-- Write one document, as an unconditional (last-write-wins) set. -/
def Store.set {α : Type} (s : Store α) (k : String) (v : α) : Store α :=
  fun q => if q = k then some v else s q

/-- JavaScript truthiness of a possibly-absent string (`undefined`, `null`
and `""` are falsy). -/
def truthyStr : Option String → Bool
  | some s => !s.isEmpty
  | none => false

/-- JavaScript `p || d` for strings: an absent or empty `p` falls back to `d`. -/
def jsOrStr (p : Option String) (d : String) : String :=
  match p with
  | some s => if s.isEmpty then d else s
  | none => d

/-- JavaScript `p || cur` where both sides are possibly-null strings. -/
def jsOrOptStr (p cur : Option String) : Option String :=
  match p with
  | some s => if s.isEmpty then cur else some s
  | none => cur

/-! ### Wallet ledger (`src/lib/wallet.ts`, `src/lib/firebase-admin.ts`) -/

inductive TxType
  | DEBIT
  | CREDIT
deriving DecidableEq

/-- `Transaction.reference` from `src/lib/wallet.ts`. -/
structure TxReference where
  assetUid : Option String := none
  stripePaymentId : Option String := none
  description : Option String := none
deriving DecidableEq

/-- A ledger transaction; `timestamp` models the ISO timestamp string as an
instant (the code only parses it back for ordering). -/
structure Transaction where
  id : String
  type : TxType
  amount : ℚ
  timestamp : Nat
  reference : TxReference
deriving DecidableEq

structure Wallet where
  balance : ℚ
  transactions : List Transaction
deriving DecidableEq

/-- The transaction payload accepted by `addServerTransaction` (no timestamp:
the function stamps it). -/
structure TransactionInput where
  id : String
  type : TxType
  amount : ℚ
  reference : TxReference
deriving DecidableEq

def withTimestamp (t : TransactionInput) (now : Nat) : Transaction :=
  { id := t.id, type := t.type, amount := t.amount, timestamp := now,
    reference := t.reference }

/-- Firestore `FieldValue.arrayUnion`: append the element unless an identical
element is already present. -/
def arrayUnion (l : List Transaction) (t : Transaction) : List Transaction :=
  if t ∈ l then l else l ++ [t]

/-- `calculateBalanceFromTransactions` from `src/lib/wallet.ts`: signed sum of
the transaction amounts (CREDIT adds, DEBIT subtracts), folded from 0. -/
def calculateBalanceFromTransactions (transactions : List Transaction) : ℚ :=
  transactions.foldl
    (fun balance tx =>
      match tx.type with
      | TxType.CREDIT => balance + tx.amount
      | TxType.DEBIT => balance - tx.amount)
    0

/-- `addServerTransaction` from `src/lib/firebase-admin.ts`: read the wallet
(throwing "Wallet not found" if absent), compute the new balance from the
transaction type, and write back the new balance together with the
timestamped transaction appended via `arrayUnion`. -/
def addServerTransaction (wallets : Store Wallet) (walletId : String)
    (transaction : TransactionInput) (now : Nat) :
    Except String (Store Wallet × ℚ) :=
  match wallets walletId with
  | none => Except.error "Wallet not found"
  | some walletData =>
    let currentBalance := walletData.balance
    let newBalance :=
      match transaction.type with
      | TxType.CREDIT => currentBalance + transaction.amount
      | TxType.DEBIT => currentBalance - transaction.amount
    let updated : Wallet :=
      { balance := newBalance,
        transactions := arrayUnion walletData.transactions (withTimestamp transaction now) }
    Except.ok (Store.set wallets walletId updated, newBalance)

/-- The error conditions reported by `verifyLedgerIntegrity`; the source
builds human-readable strings, the model keeps the structured content. -/
inductive LedgerError
  | invalidId (i : Nat)
  | invalidAmount (i : Nat)
  | timestampOutOfOrder (i : Nat)
  | balanceMismatch
deriving DecidableEq

structure LedgerReport where
  valid : Bool
  errors : List LedgerError
  calculatedBalance : ℚ
deriving DecidableEq

/-- The per-transaction loop of `verifyLedgerIntegrity`: index `i`, running
balance and `lastTimestamp` are threaded exactly as in the source (the
type-validity check of the source is vacuous on the typed model and omitted). -/
def ledgerScan : List Transaction → Nat → ℚ → Nat → List LedgerError × ℚ
  | [], _, bal, _ => ([], bal)
  | tx :: rest, i, bal, lastTimestamp =>
    let idErr := if tx.id.length < 10 then [LedgerError.invalidId i] else []
    let amountErr := if tx.amount ≤ 0 then [LedgerError.invalidAmount i] else []
    let bal1 :=
      match tx.type with
      | TxType.CREDIT => bal + tx.amount
      | TxType.DEBIT => bal - tx.amount
    let tsErr := if tx.timestamp < lastTimestamp then [LedgerError.timestampOutOfOrder i] else []
    let scanned := ledgerScan rest (i + 1) bal1 tx.timestamp
    (idErr ++ amountErr ++ tsErr ++ scanned.1, scanned.2)

/-- `verifyLedgerIntegrity` from `src/lib/wallet.ts`: scan all transactions,
then flag a balance mismatch when the calculated balance differs from the
stored balance by more than 0.01. -/
def verifyLedgerIntegrity (wallet : Wallet) : LedgerReport :=
  let scanned := ledgerScan wallet.transactions 0 0 0
  let calculatedBalance := scanned.2
  let mismatch :=
    if (1 : ℚ) / 100 < |calculatedBalance - wallet.balance| then
      [LedgerError.balanceMismatch]
    else []
  let errors := scanned.1 ++ mismatch
  { valid := errors.isEmpty, errors := errors, calculatedBalance := calculatedBalance }

/-- Timestamps are non-decreasing starting from the given lower bound
(mirrors the `lastTimestamp` threading of the scan). -/
def tsOrderedFrom : Nat → List Transaction → Prop
  | _, [] => True
  | lastTs, tx :: rest => lastTs ≤ tx.timestamp ∧ tsOrderedFrom tx.timestamp rest

instance : ∀ lastTs txs, Decidable (tsOrderedFrom lastTs txs)
  | _, [] => isTrue trivial
  | _, tx :: rest =>
    @instDecidableAnd _ _ _ (instDecidableTsOrderedFrom tx.timestamp rest)

/-! ### Offers (`src/lib/firebase-admin.ts` offer helpers) -/

inductive OfferStatus
  | pending
  | accepted
  | rejected
  | expired
deriving DecidableEq

/-- An offer document from the `offers` collection. Server timestamps
(`createdAt`, `updatedAt`, `acceptedAt`) are set by the database and carry no
logic, so they are omitted; `acceptedBy` is kept because `updateOfferStatus`
writes it. -/
structure Offer where
  id : String
  assetUid : String
  buyerId : String
  buyerName : String
  amount : ℚ
  currency : String
  message : String
  status : OfferStatus
  acceptedBy : Option String := none
deriving DecidableEq

/-- The `status` argument accepted by `updateOfferStatus` (the route's zod
schema and the function's TypeScript type restrict it to these two). -/
inductive OfferDecision
  | accepted
  | rejected
deriving DecidableEq

def OfferDecision.toStatus : OfferDecision → OfferStatus
  | OfferDecision.accepted => OfferStatus.accepted
  | OfferDecision.rejected => OfferStatus.rejected

/-- `getAcceptedOffer`: first offer for the asset with status `accepted`,
optionally restricted to one buyer (the Firestore query's `limit(1)` is the
first match in store order). -/
def getAcceptedOffer (offers : List Offer) (assetUid : String)
    (buyerId : Option String) : Option Offer :=
  offers.find? (fun o =>
    o.assetUid == assetUid && o.status == OfferStatus.accepted &&
      (match buyerId with
       | some b => o.buyerId == b
       | none => true))

/-- `getAssetOffers`: the pending offers for an asset (the source also sorts
them by amount descending, which no verified property depends on). -/
def getAssetOffers (offers : List Offer) (assetUid : String) : List Offer :=
  offers.filter (fun o => o.assetUid == assetUid && o.status == OfferStatus.pending)

/-- `updateOfferStatus` from `src/lib/firebase-admin.ts`: look the offer up by
id (error if absent), refuse unless it is still pending, write the new status
(recording `acceptedBy` on accept), and on accept reject every *other* still
pending offer on the same asset in one batch. Returns the updated offer data
as the source does (`{...offerData, id, status}`). -/
def updateOfferStatus (offers : List Offer) (offerId : String)
    (decision : OfferDecision) (ownerId : String) :
    Except String (List Offer × Offer) :=
  match offers.find? (fun o => o.id == offerId) with
  | none => Except.error "Offer not found"
  | some offerData =>
    if offerData.status ≠ OfferStatus.pending then
      Except.error "Offer is already settled"
    else
      let offers1 := offers.map (fun o =>
        if o.id == offerId then
          { o with status := decision.toStatus,
                   acceptedBy := if decision = OfferDecision.accepted then some ownerId else o.acceptedBy }
        else o)
      let offers2 :=
        if decision = OfferDecision.accepted then
          offers1.map (fun o =>
            if o.assetUid == offerData.assetUid && o.status == OfferStatus.pending && o.id != offerId then
              { o with status := OfferStatus.rejected }
            else o)
        else offers1
      Except.ok (offers2, { offerData with status := decision.toStatus })

/-- One accept/reject request as fired at `updateOfferStatus`. -/
structure OfferOp where
  offerId : String
  decision : OfferDecision
  ownerId : String

/-- Effect of one `updateOfferStatus` call on the offers collection: a
rejected (thrown) call leaves the collection unchanged. -/
def applyOfferOp (offers : List Offer) (op : OfferOp) : List Offer :=
  match updateOfferStatus offers op.offerId op.decision op.ownerId with
  | Except.ok (updated, _) => updated
  | Except.error _ => offers

def applyOfferOps (offers : List Offer) (ops : List OfferOp) : List Offer :=
  ops.foldl applyOfferOp offers

def isAcceptedOn (a : String) (o : Offer) : Bool :=
  o.assetUid == a && o.status == OfferStatus.accepted

def isPendingOn (a : String) (o : Offer) : Bool :=
  o.assetUid == a && o.status == OfferStatus.pending

def acceptedOn (a : String) (offers : List Offer) : List Offer :=
  offers.filter (isAcceptedOn a)

def pendingOn (a : String) (offers : List Offer) : List Offer :=
  offers.filter (isPendingOn a)

/-- The inductive invariant of the offers collection: document ids are
unique, each asset carries at most one accepted offer, and an asset with an
accepted offer has no pending offers left (acceptance rejects them all). -/
def OffersInv (offers : List Offer) : Prop :=
  (offers.map Offer.id).Nodup ∧
  ∀ a, (acceptedOn a offers).length ≤ 1 ∧
    (acceptedOn a offers ≠ [] → pendingOn a offers = [])

/-! ### Asset store (`src/lib/contentstack-am2.ts`) -/

/-- `OwnerRecord` from `src/lib/contentstack-am2.ts`. -/
structure OwnerRecord where
  user_id : Option String := none
  user_name : Option String := none
  purchase_date : Option String := none
  transaction_id : Option String := none
deriving DecidableEq

inductive AssetStatus
  | sold
  | sale
  | resale
deriving DecidableEq

/-- `ArtMetadata` from `src/lib/contentstack-am2.ts`, plus the `current_owner`
field that several routes read through optional chaining. `current_owner` is
not part of the am2 client's `ArtMetadata` interface: `updateAssetMetadata`
never places it in an update request, so any update clears it from the stored
document (the PUT body replaces `custom_metadata` wholesale). -/
structure ArtMetadata where
  artist_uid : Option String := none
  artist_name : Option String := none
  price : Option ℚ := none
  currency : Option String := none
  status : Option AssetStatus := none
  category : Option String := none
  owners : List OwnerRecord := []
  current_owner : Option OwnerRecord := none
deriving DecidableEq

structure CustomMetadata where
  art_metadata : ArtMetadata
deriving DecidableEq

/-- The slice of `ContentstackAsset` the verified handlers touch. -/
structure ContentstackAsset where
  title : String := ""
  description : Option String := none
  tags : List String := []
  custom_metadata : CustomMetadata
deriving DecidableEq

/-- `AssetUpdateParams` from `src/lib/contentstack-am2.ts`. -/
structure AssetUpdateParams where
  title : Option String := none
  description : Option String := none
  tags : Option (List String) := none
  artist_uid : Option String := none
  artist_name : Option String := none
  price : Option ℚ := none
  currency : Option String := none
  status : Option AssetStatus := none
  category : Option String := none
  owners : Option (List OwnerRecord) := none
deriving DecidableEq

/-- `getAssetUsingAMV2API`: read an asset, throwing when it is missing. -/
def getAssetUsingAMV2API (assets : Store ContentstackAsset) (assetUid : String) :
    Except String ContentstackAsset :=
  match assets assetUid with
  | none => Except.error "Failed to get asset from AM2 API"
  | some a => Except.ok a

/-- `updateAssetMetadata` from `src/lib/contentstack-am2.ts`: read the current
asset, build the full update request field by field (`params.x || current.x`
for strings/status/category/owners, an explicit `undefined` check for price
and description), and PUT it. The request carries exactly the listed
`art_metadata` fields, so the stored `current_owner` is not preserved. -/
def updateAssetMetadata (assets : Store ContentstackAsset) (assetUid : String)
    (params : AssetUpdateParams) :
    Except String (Store ContentstackAsset × ContentstackAsset) :=
  match assets assetUid with
  | none => Except.error "Failed to get asset from AM2 API"
  | some currentAsset =>
    let cur := currentAsset.custom_metadata.art_metadata
    let newMeta : ArtMetadata :=
      { artist_uid := jsOrOptStr params.artist_uid cur.artist_uid,
        artist_name := jsOrOptStr params.artist_name cur.artist_name,
        price := params.price.or cur.price,
        currency := jsOrOptStr params.currency cur.currency,
        status := params.status.or cur.status,
        category := jsOrOptStr params.category cur.category,
        owners := params.owners.getD cur.owners,
        current_owner := none }
    let newAsset : ContentstackAsset :=
      { title := jsOrStr params.title currentAsset.title,
        description := params.description.or currentAsset.description,
        tags := params.tags.getD currentAsset.tags,
        custom_metadata := { art_metadata := newMeta } }
    Except.ok (Store.set assets assetUid newAsset, newAsset)

/-- `addAssetOwner` from `src/lib/contentstack-am2.ts`: fetch the asset,
append the new owner record to the flat `owners` array (never removing
existing owners), and update the metadata with the grown array and status
`sold`. -/
def addAssetOwner (assets : Store ContentstackAsset) (assetUid : String)
    (owner : OwnerRecord) :
    Except String (Store ContentstackAsset × ContentstackAsset) :=
  match assets assetUid with
  | none => Except.error "Failed to get asset from AM2 API"
  | some asset =>
    let currentOwners := asset.custom_metadata.art_metadata.owners
    updateAssetMetadata assets assetUid
      { owners := some (currentOwners ++ [owner]), status := some AssetStatus.sold }

/-! ### User collection index (`src/lib/firebase-admin.ts`) -/

structure UserAssetEntry where
  assetUid : String
  transactionId : String
  purchaseDate : String
  price : ℚ
  currency : String
  addedAt : Nat
deriving DecidableEq

structure UserAssets where
  userId : String
  assets : List UserAssetEntry
deriving DecidableEq

structure PurchaseData where
  transactionId : String
  purchaseDate : String
  price : ℚ
  currency : String
deriving DecidableEq

/-- `addUserAsset` from `src/lib/firebase-admin.ts`: create the per-user
document with a single entry if absent; otherwise append the entry only when
no existing entry carries the same asset id. -/
def addUserAsset (userAssets : Store UserAssets) (userId : String)
    (assetUid : String) (purchaseData : PurchaseData) (now : Nat) :
    Store UserAssets :=
  let newAsset : UserAssetEntry :=
    { assetUid := assetUid, transactionId := purchaseData.transactionId,
      purchaseDate := purchaseData.purchaseDate, price := purchaseData.price,
      currency := purchaseData.currency, addedAt := now }
  match userAssets userId with
  | none => Store.set userAssets userId { userId := userId, assets := [newAsset] }
  | some doc =>
    let assetExists := doc.assets.any (fun a => a.assetUid == assetUid)
    if assetExists then userAssets
    else Store.set userAssets userId { doc with assets := doc.assets ++ [newAsset] }

/-- `removeUserAsset` from `src/lib/firebase-admin.ts`: filter the asset out
of the per-user document; write back only when something was removed; missing
document means nothing to remove. Errors are swallowed by the source, so the
model is total. -/
def removeUserAsset (userAssets : Store UserAssets) (userId : String)
    (assetUid : String) : Store UserAssets :=
  match userAssets userId with
  | none => userAssets
  | some doc =>
    let updatedAssets := doc.assets.filter (fun a => !(a.assetUid == assetUid))
    if updatedAssets.length ≠ doc.assets.length then
      Store.set userAssets userId { doc with assets := updatedAssets }
    else userAssets

/-! ### World state and request/response shapes -/

/-- A Firestore `users` document as the server reads it (`getServerUserProfile`);
only the fields the verified handlers consult are kept. -/
structure UserProfile where
  displayName : Option String := none
  walletId : Option String := none
deriving DecidableEq

/-- The external state the settlement and offer handlers read and write. -/
structure World where
  wallets : Store Wallet
  users : Store UserProfile
  assets : Store ContentstackAsset
  userAssets : Store UserAssets
  offers : List Offer

/-- `session.metadata` as embedded by the checkout initiator. -/
structure SessionMetadata where
  artworkId : Option String := none
  userId : Option String := none
  walletId : Option String := none
deriving DecidableEq

/-- The slice of a Stripe checkout session the handlers consult.
`payment_intent` is modelled as the payment id string (the fallback handler's
expanded-object branch resolves to the same id). -/
structure CheckoutSession where
  id : String
  metadata : Option SessionMetadata := none
  amount_total : Option ℚ := none
  payment_intent : String
  payment_status : String
deriving DecidableEq

/-- A signature-verified Stripe event as it reaches the webhook handler. -/
structure StripeEvent where
  type : String
  session : CheckoutSession
deriving DecidableEq

/-- The JSON body the handlers respond with, flattened: `status` is the HTTP
status, and the optional fields model the keys of the respective JSON
payloads (`success`, `message`, `transactionId`, `error`, `received`,
`offer.status`). -/
structure ApiResponse where
  status : Nat
  success : Bool := false
  message : Option String := none
  transactionId : Option String := none
  error : Option String := none
  received : Bool := false
  offerStatus : Option OfferStatus := none
deriving DecidableEq

/-! ### Webhook settlement handler (`POST /api/purchase/webhook`) -/

/-- The settlement part of the webhook route, entered after signature
verification with the verified event. `transactionId` stands for the value of
`createTransactionId()` and `now` for the wall clock. On
`checkout.session.completed` it unconditionally appends the DEBIT ledger
transaction, appends the buyer to the asset's owner array (status `sold`),
and adds the asset to the buyer's collection; there is no idempotency check.
A thrown step maps to a 500 response, keeping the partial writes that already
happened. Other event types are acknowledged with `{received: true}`. -/
def webhookPOST (w : World) (event : StripeEvent) (transactionId : String)
    (now : Nat) : ApiResponse × World :=
  if event.type == "checkout.session.completed" then
    let session := event.session
    let md := session.metadata.getD {}
    match md.artworkId, md.userId, md.walletId with
    | some artworkId, some userId, some walletId =>
      if artworkId.isEmpty || userId.isEmpty || walletId.isEmpty then
        ({ status := 400, error := some "Missing required metadata" }, w)
      else
        let amount := session.amount_total.getD 0 / 100
        let stripePaymentId := session.payment_intent
        match addServerTransaction w.wallets walletId
            { id := transactionId, type := TxType.DEBIT, amount := amount,
              reference := { assetUid := some artworkId,
                             stripePaymentId := some stripePaymentId,
                             description := some ("Artwork purchase: " ++ artworkId) } }
            now with
        | Except.error _ =>
          ({ status := 500, error := some "Error processing purchase" }, w)
        | Except.ok (wallets2, _) =>
          let w1 := { w with wallets := wallets2 }
          let userName :=
            match w1.users userId with
            | some p => jsOrStr p.displayName "Anonymous"
            | none => "Anonymous"
          let purchaseDate := toString now
          match addAssetOwner w1.assets artworkId
              { user_id := some userId, user_name := some userName,
                purchase_date := some purchaseDate,
                transaction_id := some transactionId } with
          | Except.error _ =>
            ({ status := 500, error := some "Error processing purchase" }, w1)
          | Except.ok (assets2, _) =>
            let w2 := { w1 with assets := assets2 }
            let ua3 :=
              addUserAsset w2.userAssets userId artworkId
                { transactionId := transactionId, purchaseDate := purchaseDate,
                  price := amount, currency := "USD" } now
            let w3 := { w2 with userAssets := ua3 }
            ({ status := 200, success := true,
               message := some "Purchase processed successfully",
               transactionId := some transactionId }, w3)
    | _, _, _ => ({ status := 400, error := some "Missing required metadata" }, w)
  else
    ({ status := 200, received := true }, w)

/-! ### Manual-fallback settlement handler (`POST /api/purchase/process`) -/

/-- A request to the fallback route: `auth` is the uid of a verified bearer
token (`none` models a missing or invalid token), `sessionId` the parsed
body field. -/
structure ProcessRequest where
  auth : Option String
  sessionId : Option String
deriving DecidableEq

/-- Does this stored `current_owner` record name the given user
(`currentOwner?.user_id === userId`)? -/
def ownerMatches (currentOwner : Option OwnerRecord) (userId : String) : Bool :=
  match currentOwner with
  | some c => c.user_id == some userId
  | none => false

/-- JavaScript `currentOwner?.user_id || null`. -/
def ownerIdOrNull (currentOwner : Option OwnerRecord) : Option String :=
  match currentOwner with
  | some c =>
    match c.user_id with
    | some s => if s.isEmpty then none else some s
    | none => none
  | none => none

/-- The manual-fallback settlement route. `lookupSession` models the Stripe
session registry, `transactionId` the fresh `createTransactionId()` value and
`now` the wall clock. Result: response, final world, and whether the
cache-invalidation automation was triggered. The body follows the source step
by step: auth, session retrieval, paid check, metadata check, requester
check, the early owner-based idempotency check, the transaction-based
idempotency check, ledger append, race-condition re-read, ownership write,
confirmation re-read guarding the automation trigger, previous-owner index
removal, and buyer index insertion. -/
def processPOST (w : World) (req : ProcessRequest)
    (lookupSession : String → Option CheckoutSession)
    (transactionId : String) (now : Nat) : ApiResponse × World × Bool :=
  match req.auth with
  | none => ({ status := 401, error := some "Unauthorized" }, w, false)
  | some uid =>
    if !truthyStr req.sessionId then
      ({ status := 400, error := some "Session ID is required" }, w, false)
    else
      match lookupSession (req.sessionId.getD "") with
      | none => ({ status := 404, error := some "Checkout session not found" }, w, false)
      | some session =>
        if session.payment_status != "paid" then
          ({ status := 400, error := some "Payment not completed" }, w, false)
        else
          let md := session.metadata.getD {}
          match md.artworkId, md.userId, md.walletId with
          | some artworkId, some userId, some walletId =>
            if artworkId.isEmpty || userId.isEmpty || walletId.isEmpty then
              ({ status := 400, error := some "Missing required metadata in checkout session" }, w, false)
            else if uid != userId then
              ({ status := 403, error := some "Unauthorized to process this purchase" }, w, false)
            else
              let amount := session.amount_total.getD 0 / 100
              let stripePaymentId := session.payment_intent
              match w.assets artworkId with
              | none =>
                ({ status := 500, error := some "Failed to get asset from AM2 API" }, w, false)
              | some currentAsset =>
                let currentOwner := currentAsset.custom_metadata.art_metadata.current_owner
                let earlyHit : Option Transaction :=
                  if ownerMatches currentOwner userId then
                    match w.users userId with
                    | some p =>
                      if truthyStr p.walletId then
                        match w.wallets walletId with
                        | some wallet =>
                          wallet.transactions.find? (fun t =>
                            t.reference.assetUid == some artworkId &&
                              t.reference.stripePaymentId == some stripePaymentId)
                        | none => none
                      else none
                    | none => none
                  else none
                match earlyHit with
                | some existingTransaction =>
                  ({ status := 200, success := true,
                     message := some "Purchase already processed",
                     transactionId := some existingTransaction.id }, w, false)
                | none =>
                  match w.users userId with
                  | none =>
                    ({ status := 400, error := some "User wallet not found" }, w, false)
                  | some userProfile =>
                    if !truthyStr userProfile.walletId then
                      ({ status := 400, error := some "User wallet not found" }, w, false)
                    else
                      let existingTransaction : Option Transaction :=
                        match w.wallets walletId with
                        | some wallet =>
                          wallet.transactions.find? (fun t =>
                            t.reference.stripePaymentId == some stripePaymentId)
                        | none => none
                      match existingTransaction with
                      | some t =>
                        ({ status := 200, success := true,
                           message := some "Purchase already processed",
                           transactionId := some t.id }, w, false)
                      | none =>
                        match addServerTransaction w.wallets walletId
                            { id := transactionId, type := TxType.DEBIT, amount := amount,
                              reference := { assetUid := some artworkId,
                                             stripePaymentId := some stripePaymentId,
                                             description := some ("Artwork purchase: " ++ artworkId) } }
                            now with
                        | Except.error _ =>
                          ({ status := 500, error := some "Error processing purchase" }, w, false)
                        | Except.ok (wallets2, _) =>
                          let w1 := { w with wallets := wallets2 }
                          match w1.assets artworkId with
                          | none =>
                            ({ status := 500, error := some "Error processing purchase" }, w1, false)
                          | some currentAssetForOwner =>
                            let currentOwnerForCheck :=
                              currentAssetForOwner.custom_metadata.art_metadata.current_owner
                            let previousOwnerId := ownerIdOrNull currentOwnerForCheck
                            if ownerMatches currentOwnerForCheck userId &&
                                previousOwnerId == some userId then
                              ({ status := 200, success := true,
                                 message := some "Purchase already processed (race condition handled)",
                                 transactionId := some transactionId }, w1, false)
                            else
                              let purchaseDate := toString now
                              match addAssetOwner w1.assets artworkId
                                  { user_id := some userId,
                                    user_name := jsOrOptStr userProfile.displayName (some "Anonymous"),
                                    purchase_date := some purchaseDate,
                                    transaction_id := some transactionId } with
                              | Except.error _ =>
                                ({ status := 500, error := some "Error processing purchase" }, w1, false)
                              | Except.ok (assets2, _) =>
                                let w2 := { w1 with assets := assets2 }
                                let triggered :=
                                  match w2.assets artworkId with
                                  | some verifyAsset =>
                                    match verifyAsset.custom_metadata.art_metadata.current_owner with
                                    | some verifyOwner =>
                                      verifyOwner.user_id == some userId &&
                                        verifyOwner.transaction_id == some transactionId
                                    | none => false
                                  | none => false
                                let w3 :=
                                  match previousOwnerId with
                                  | some prev =>
                                    if prev != userId then
                                      { w2 with userAssets := removeUserAsset w2.userAssets prev artworkId }
                                    else w2
                                  | none => w2
                                let ua4 :=
                                  addUserAsset w3.userAssets userId artworkId
                                    { transactionId := transactionId, purchaseDate := purchaseDate,
                                      price := amount, currency := "USD" } now
                                let w4 := { w3 with userAssets := ua4 }
                                ({ status := 200, success := true,
                                   message := some "Purchase processed successfully",
                                   transactionId := some transactionId }, w4, triggered)
          | _, _, _ =>
            ({ status := 400, error := some "Missing required metadata in checkout session" }, w, false)

/-! ### Checkout initiator (`POST /api/purchase/checkout`) -/

structure CheckoutRequest where
  auth : Option String
  artworkId : Option String
deriving DecidableEq

/-- The checkout session handed to the payment processor, with the metadata
the settlement handlers later rely on. -/
structure CreatedSession where
  artworkId : String
  price : ℚ
  userId : String
  walletId : String
deriving DecidableEq

/-- The checkout initiator: validate auth and body, require a wallet on the
profile, fetch the asset (a missing asset raises, surfacing as a 500 with the
raised message), require a truthy price, allow purchase when the status is
`sale`/`resale` or the requester holds an accepted offer, refuse the current
owner and the artist, and create the session priced at the accepted offer's
amount (falling back to the listed price when that amount is falsy). -/
def checkoutPOST (w : World) (req : CheckoutRequest) :
    ApiResponse × Option CreatedSession :=
  match req.auth with
  | none => ({ status := 401, error := some "Unauthorized" }, none)
  | some uid =>
    if !truthyStr req.artworkId then
      ({ status := 400, error := some "Invalid request" }, none)
    else
      let artworkId := req.artworkId.getD ""
      let profileWalletId :=
        match w.users uid with
        | some profile => profile.walletId
        | none => none
      if !truthyStr profileWalletId then
        ({ status := 400, error := some "No wallet found. Please complete account setup." }, none)
      else
        match w.assets artworkId with
        | none => ({ status := 500, error := some "Asset not found" }, none)
        | some asset =>
          let artMetadata := asset.custom_metadata.art_metadata
          let priceTruthy :=
            match artMetadata.price with
            | some p => !(p == 0)
            | none => false
          if !priceTruthy then
            ({ status := 400, error := some "Artwork is not for sale" }, none)
          else
            let acceptedOffer := getAcceptedOffer w.offers artworkId (some uid)
            let hasAcceptedOffer :=
              match acceptedOffer with
              | some o => o.buyerId == uid
              | none => false
            let isAvailableForSale :=
              artMetadata.status == some AssetStatus.sale ||
                artMetadata.status == some AssetStatus.resale
            if !isAvailableForSale && !hasAcceptedOffer then
              ({ status := 400, error := some "This artwork is not available for purchase" }, none)
            else
              let listedPrice := artMetadata.price.getD 0
              let purchasePrice :=
                if hasAcceptedOffer then
                  match acceptedOffer with
                  | some o => if o.amount == 0 then listedPrice else o.amount
                  | none => listedPrice
                else listedPrice
              let isCurrentOwner := ownerMatches artMetadata.current_owner uid
              if isCurrentOwner then
                ({ status := 400, error := some "You already own this artwork" }, none)
              else if artMetadata.artist_uid == some uid then
                ({ status := 400, error := some "Cannot purchase your own artwork" }, none)
              else
                ({ status := 200, success := true },
                 some { artworkId := artworkId, price := purchasePrice,
                        userId := uid, walletId := profileWalletId.getD "" })

/-! ### Offer accept/reject route (`PUT /api/assets/[assetUid]/offers/[offerId]`) -/

/-- A request to the offer update route. `body` is the zod-validated status
(`none` models a body that failed validation). -/
structure UpdateOfferRequest where
  auth : Option String
  assetUid : Option String
  offerId : Option String
  body : Option OfferDecision
deriving DecidableEq

/-- The offer accept/reject route. `cmsOk` models whether the external
asset-store call made for the best-effort price update succeeds. The source
looks the offer up in the pending offers for the asset before updating; on
accept it then updates the artwork's listed price/currency inside a `try`
whose failure is only logged. A missing asset raises "Asset not found: ..."
from the CDA client, which the route's catch maps to a 404. -/
def offerPUT (w : World) (req : UpdateOfferRequest) (cmsOk : Bool) :
    ApiResponse × World :=
  match req.auth with
  | none => ({ status := 401, error := some "Unauthorized" }, w)
  | some userId =>
    if !truthyStr req.assetUid || !truthyStr req.offerId then
      ({ status := 400, error := some "Asset UID and Offer ID are required" }, w)
    else
      let assetUid := req.assetUid.getD ""
      let offerId := req.offerId.getD ""
      match w.assets assetUid with
      | none => ({ status := 404, error := some "Asset not found" }, w)
      | some asset =>
        let artMetadata := asset.custom_metadata.art_metadata
        if !ownerMatches artMetadata.current_owner userId then
          ({ status := 403, error := some "Only the current owner can accept or reject offers" }, w)
        else
          match req.body with
          | none => ({ status := 400, error := some "Invalid request data" }, w)
          | some decision =>
            match (getAssetOffers w.offers assetUid).find? (fun o => o.id == offerId) with
            | none => ({ status := 404, error := some "Offer not found" }, w)
            | some offer =>
              match updateOfferStatus w.offers offerId decision userId with
              | Except.error e =>
                if e == "Offer not found" then
                  ({ status := 404, error := some e }, w)
                else
                  ({ status := 500, error := some e }, w)
              | Except.ok (offers2, updatedOffer) =>
                let w1 := { w with offers := offers2 }
                let w2 :=
                  if decision = OfferDecision.accepted then
                    let attempt :=
                      if cmsOk then
                        updateAssetMetadata w1.assets assetUid
                          { price := some offer.amount, currency := some offer.currency }
                      else Except.error "Failed to update asset metadata"
                    match attempt with
                    | Except.ok (assets2, _) => { w1 with assets := assets2 }
                    | Except.error _ => w1
                  else w1
                let notice :=
                  match decision with
                  | OfferDecision.accepted => "Offer accepted successfully"
                  | OfferDecision.rejected => "Offer rejected successfully"
                ({ status := 200, success := true, message := some notice,
                   offerStatus := some updatedOffer.status }, w2)

/-! ### Derived observations used in statements -/

/-- Number of ledger transactions referencing a given payment id. -/
def paymentTxCount (pid : String) (txs : List Transaction) : Nat :=
  (txs.filter (fun t => t.reference.stripePaymentId == some pid)).length

/-- Number of DEBIT ledger transactions referencing a given payment id. -/
def debitPaymentTxCount (pid : String) (txs : List Transaction) : Nat :=
  (txs.filter (fun t =>
    t.type == TxType.DEBIT && t.reference.stripePaymentId == some pid)).length

/-- The implicitly-current owner of the flat `owners` array schema: its last
element (spec §3: "a flat owners array whose last element is implicitly
current"). -/
def currentOwnerOfOwners (m : ArtMetadata) : Option OwnerRecord :=
  m.owners.getLast?

/-! ### Concrete fixtures for witnesses and counterexamples -/

def sampleMeta : SessionMetadata :=
  { artworkId := some "asset1", userId := some "buyer1", walletId := some "wallet1" }

def sampleSession : CheckoutSession :=
  { id := "cs_1", metadata := some sampleMeta, amount_total := some 10000,
    payment_intent := "pi_1", payment_status := "paid" }

def sampleEvent : StripeEvent :=
  { type := "checkout.session.completed", session := sampleSession }

def sampleLookup : String → Option CheckoutSession :=
  fun s => if s = "cs_1" then some sampleSession else none

def saleMetadata : ArtMetadata :=
  { artist_uid := some "artist1", artist_name := some "Ann",
    price := some 100, currency := some "USD", status := some AssetStatus.sale,
    category := some "digital", owners := [], current_owner := none }

def saleAsset : ContentstackAsset :=
  { title := "Sunrise", description := none, tags := [],
    custom_metadata := { art_metadata := saleMetadata } }

def buyerProfile : UserProfile :=
  { displayName := some "Buyer", walletId := some "wallet1" }

/-- A fresh-sale world: one buyer with an empty wallet, one asset listed for
sale at 100. -/
def sampleWorld : World :=
  { wallets := fun k => if k = "wallet1" then some { balance := 0, transactions := [] } else none,
    users := fun k => if k = "buyer1" then some buyerProfile else none,
    assets := fun k => if k = "asset1" then some saleAsset else none,
    userAssets := fun _ => none,
    offers := [] }

def prevOwnerRecord : OwnerRecord :=
  { user_id := some "prev1", user_name := some "Prev",
    purchase_date := some "0", transaction_id := some "TX_OLD0000001" }

def resaleMetadata : ArtMetadata :=
  { artist_uid := some "artist1", artist_name := some "Ann",
    price := some 100, currency := some "USD", status := some AssetStatus.resale,
    category := some "digital", owners := [prevOwnerRecord],
    current_owner := some prevOwnerRecord }

def resaleAsset : ContentstackAsset :=
  { title := "Sunrise", description := none, tags := [],
    custom_metadata := { art_metadata := resaleMetadata } }

def prevIndexDoc : UserAssets :=
  { userId := "prev1",
    assets := [{ assetUid := "asset1", transactionId := "TX_OLD0000001",
                 purchaseDate := "0", price := 100, currency := "USD", addedAt := 0 }] }

/-- A resale world: the asset was previously settled to `prev1` (whose
stored `current_owner` and collection index both record it) and is relisted;
`buyer1` has paid. -/
def resaleWorld : World :=
  { wallets := fun k => if k = "wallet1" then some { balance := 0, transactions := [] } else none,
    users := fun k => if k = "buyer1" then some buyerProfile else none,
    assets := fun k => if k = "asset1" then some resaleAsset else none,
    userAssets := fun k => if k = "prev1" then some prevIndexDoc else none,
    offers := [] }

/-! Fixtures for the webhook-twice run (C1) and webhook-then-fallback run (C2). -/

def c1run1 : ApiResponse × World := webhookPOST sampleWorld sampleEvent "TX_AAAAAAA001" 1

def c1run2 : ApiResponse × World := webhookPOST c1run1.2 sampleEvent "TX_AAAAAAA002" 2

def c2fallback : ApiResponse × World × Bool :=
  processPOST c1run1.2 { auth := some "buyer1", sessionId := some "cs_1" }
    sampleLookup "TX_AAAAAAA003" 3

def c3fallback : ApiResponse × World × Bool :=
  processPOST sampleWorld { auth := some "buyer1", sessionId := some "cs_1" }
    sampleLookup "TX_AAAAAAA004" 1

def c4webhook : ApiResponse × World :=
  webhookPOST resaleWorld sampleEvent "TX_AAAAAAA005" 1

def c4fallback : ApiResponse × World × Bool :=
  processPOST resaleWorld { auth := some "buyer1", sessionId := some "cs_1" }
    sampleLookup "TX_AAAAAAA006" 1

/-! Fixtures for the ledger claim (C7). -/

def c7wallet : Wallet :=
  { balance := 5,
    transactions := [{ id := "x", type := TxType.CREDIT, amount := 5, timestamp := 0,
                       reference := {} }] }

def c7store : Store Wallet := fun k => if k = "w1" then some c7wallet else none

def c7tx : TransactionInput :=
  { id := "TX_ABCDEFGHIJ", type := TxType.DEBIT, amount := 2, reference := {} }

/-- The wallet produced by appending `c7tx` to `c7wallet` at instant 1. -/
def c7after : Option Wallet :=
  match addServerTransaction c7store "w1" c7tx 1 with
  | Except.ok (s, _) => s "w1"
  | Except.error _ => none

def c7expected : Wallet :=
  { balance := 3,
    transactions := [{ id := "x", type := TxType.CREDIT, amount := 5, timestamp := 0,
                       reference := {} },
                     { id := "TX_ABCDEFGHIJ", type := TxType.DEBIT, amount := 2, timestamp := 1,
                       reference := {} }] }

/-- A well-formed wallet (valid transaction ids, positive amounts, ordered
timestamps) for exercising the amended ledger claim. -/
def c7goodWallet : Wallet :=
  { balance := 5,
    transactions := [{ id := "TX_AAAAAAA000", type := TxType.CREDIT, amount := 5,
                       timestamp := 0, reference := {} }] }

def c7goodStore : Store Wallet := fun k => if k = "w1" then some c7goodWallet else none

def c7goodAfter : Wallet :=
  { balance := (5 : ℚ) - 2,
    transactions := [{ id := "TX_AAAAAAA000", type := TxType.CREDIT, amount := 5,
                       timestamp := 0, reference := {} },
                     { id := "TX_ABCDEFGHIJ", type := TxType.DEBIT, amount := 2,
                       timestamp := 1, reference := {} }] }

/-! Fixtures for the checkout claim (C8). -/

def acceptedOfferFix : Offer :=
  { id := "OFFER_1", assetUid := "asset1", buyerId := "buyer1", buyerName := "Buyer",
    amount := 40, currency := "USD", message := "", status := OfferStatus.accepted }

def nullStatusMetadata : ArtMetadata :=
  { artist_uid := some "artist1", artist_name := some "Ann",
    price := some 50, currency := some "USD", status := none,
    category := some "digital", owners := [], current_owner := none }

def nullStatusAsset : ContentstackAsset :=
  { title := "Sunrise", description := none, tags := [],
    custom_metadata := { art_metadata := nullStatusMetadata } }

/-- A world where the asset's stored status is null but the requester holds an
accepted offer. -/
def nullStatusWorld : World :=
  { wallets := fun k => if k = "wallet1" then some { balance := 0, transactions := [] } else none,
    users := fun k => if k = "buyer1" then some buyerProfile else none,
    assets := fun k => if k = "asset1" then some nullStatusAsset else none,
    userAssets := fun _ => none,
    offers := [acceptedOfferFix] }

def c8checkout : ApiResponse × Option CreatedSession :=
  checkoutPOST nullStatusWorld { auth := some "buyer1", artworkId := some "asset1" }

/-! Fixtures for the offer claims (C6, C9). -/

def soldOwnedMetadata : ArtMetadata :=
  { artist_uid := some "artist1", artist_name := some "Ann",
    price := some 100, currency := some "USD", status := some AssetStatus.sold,
    category := some "digital", owners := [],
    current_owner := some { user_id := some "owner1", user_name := some "Own",
                            purchase_date := some "0", transaction_id := some "TX_OLD0000001" } }

def soldOwnedAsset : ContentstackAsset :=
  { title := "Sunrise", description := none, tags := [],
    custom_metadata := { art_metadata := soldOwnedMetadata } }

def pendingOffer77 : Offer :=
  { id := "OFFER_2", assetUid := "asset1", buyerId := "buyer1", buyerName := "Buyer",
    amount := 77, currency := "USD", message := "", status := OfferStatus.pending }

def pendingOffer60 : Offer :=
  { id := "OFFER_3", assetUid := "asset1", buyerId := "buyer2", buyerName := "Bo",
    amount := 60, currency := "USD", message := "", status := OfferStatus.pending }

def offersWorld : World :=
  { wallets := fun _ => none,
    users := fun _ => none,
    assets := fun k => if k = "asset1" then some soldOwnedAsset else none,
    userAssets := fun _ => none,
    offers := [pendingOffer77, pendingOffer60] }

def acceptOfferRequest : UpdateOfferRequest :=
  { auth := some "owner1", assetUid := some "asset1", offerId := some "OFFER_2",
    body := some OfferDecision.accepted }

def acceptedOffer77 : Offer :=
  { pendingOffer77 with status := OfferStatus.accepted, acceptedBy := some "owner1" }

def rejectedOffer60 : Offer :=
  { pendingOffer60 with status := OfferStatus.rejected }

def updatedOffer77 : Offer :=
  { pendingOffer77 with status := OfferStatus.accepted }

/-! Fixtures for the collection-index claim (C10). -/

def c10doc : UserAssets :=
  { userId := "u1",
    assets := [{ assetUid := "a1", transactionId := "TX_OLD0000002",
                 purchaseDate := "0", price := 10, currency := "USD", addedAt := 0 }] }

def c10store : Store UserAssets := fun k => if k = "u1" then some c10doc else none

def c10purchase : PurchaseData :=
  { transactionId := "TX_AAAAAAA007", purchaseDate := "1", price := 10, currency := "USD" }

/-! ## Theorems -/

/-- C1 counterexample: the webhook settlement handler is not idempotent. On a
fresh sale, delivering the same completed-checkout event twice makes both
invocations report success, and afterwards the buyer's wallet holds two
ledger transactions referencing the payment id "pi_1" instead of one. -/
theorem C1_counterexample :
    c1run1.1.success = true ∧ c1run2.1.success = true ∧
    (match c1run2.2.wallets "wallet1" with
     | some wl => paymentTxCount "pi_1" wl.transactions
     | none => 0) = 2 := by
  decide

/-- C3: evaluation of the fallback settlement at the failing input. On a
fresh sale with no concurrent writer the request succeeds, the ownership
write lands (the buyer becomes the last element of the owner array, status
`sold`), yet the confirmation re-read fails — `addAssetOwner` never writes
`current_owner`, the field the verification inspects — so the
cache-invalidation automation is never triggered, contrary to the claim. -/
theorem C3_code_evaluation :
    c3fallback.1.status = 200 ∧ c3fallback.1.success = true ∧
    (c3fallback.2.1.assets "asset1").map (fun a =>
      currentOwnerOfOwners a.custom_metadata.art_metadata ==
          some { user_id := some "buyer1", user_name := some "Buyer",
                 purchase_date := some "1", transaction_id := some "TX_AAAAAAA004" } &&
        a.custom_metadata.art_metadata.status == some AssetStatus.sold &&
        a.custom_metadata.art_metadata.current_owner == none) = some true ∧
    c3fallback.2.2 = false := by
  decide

/-- C2 counterexample: in the webhook-then-fallback double delivery the
second call does short-circuit successfully, but the message it returns is
"Purchase already processed", not the claimed "already processed". -/
theorem C2_counterexample :
    c2fallback.1.message = some "Purchase already processed" ∧
    ("Purchase already processed" = "already processed" → False) := by
  decide

/-- C4 counterexample: a resale settled through the webhook entry point is a
settlement with a previous owner different from the buyer after which the
previous owner's UserAssetIndex still lists the asset — the webhook handler
never calls `removeUserAsset`. -/
theorem C4_counterexample :
    c4webhook.1.success = true ∧
    (c4webhook.2.userAssets "prev1").map (fun d =>
      d.assets.any (fun a => a.assetUid == "asset1")) = some true := by
  decide

/-- C7 counterexample: for a wallet whose balance equals the signed sum of
its transactions but whose pre-existing transaction has a malformed (short)
id, `addServerTransaction` preserves the balance equality, yet
`verifyLedgerIntegrity` does not report the wallet as valid. -/
theorem C7_counterexample :
    c7wallet.balance = calculateBalanceFromTransactions c7wallet.transactions ∧
    c7after = some c7expected ∧
    c7expected.balance = calculateBalanceFromTransactions c7expected.transactions ∧
    (verifyLedgerIntegrity c7expected).valid = false := by
  refine ⟨?_, ?_, ?_, ?_⟩
  · norm_num [c7wallet, calculateBalanceFromTransactions]
  · norm_num [c7after, addServerTransaction, c7store, c7tx, c7wallet, c7expected,
      arrayUnion, withTimestamp, Store.set]
  · norm_num [c7expected, calculateBalanceFromTransactions]
  · norm_num [verifyLedgerIntegrity, ledgerScan, c7expected]
    decide

/-- C8 counterexample: with a stored status of null and an accepted offer for
the requester, the checkout initiator creates a session even though the
claim's purchasability condition (status sale/resale, or status sold with an
accepted offer) does not hold. -/
theorem C8_counterexample :
    (c8checkout.2.isSome = true) ∧
    nullStatusMetadata.status ≠ some AssetStatus.sale ∧
    nullStatusMetadata.status ≠ some AssetStatus.resale ∧
    nullStatusMetadata.status ≠ some AssetStatus.sold := by
  decide

/-- Characterization of a successful webhook settlement: with complete
metadata, an existing wallet and an existing asset, the handler returns the
success payload and the world with the DEBIT transaction appended, the buyer
appended to the asset's owner array with status `sold` (and `current_owner`
cleared, since the update request never carries it), and the asset added to
the buyer's collection. -/
theorem webhookPOST_completed (w : World) (session : CheckoutSession)
    (aid uidv wid tid : String) (now : Nat) (wl : Wallet) (asset : ContentstackAsset)
    (hmeta : session.metadata =
      some { artworkId := some aid, userId := some uidv, walletId := some wid })
    (ha : aid.isEmpty = false) (hu : uidv.isEmpty = false) (hwi : wid.isEmpty = false)
    (hwal : w.wallets wid = some wl)
    (hasset : w.assets aid = some asset) :
    webhookPOST w { type := "checkout.session.completed", session := session } tid now =
      ({ status := 200, success := true,
         message := some "Purchase processed successfully",
         transactionId := some tid },
       { w with
         wallets := Store.set w.wallets wid
           { balance := wl.balance - session.amount_total.getD 0 / 100,
             transactions := arrayUnion wl.transactions
               { id := tid, type := TxType.DEBIT,
                 amount := session.amount_total.getD 0 / 100, timestamp := now,
                 reference := { assetUid := some aid,
                                stripePaymentId := some session.payment_intent,
                                description := some ("Artwork purchase: " ++ aid) } } },
         assets := Store.set w.assets aid
           { title := asset.title, description := asset.description, tags := asset.tags,
             custom_metadata := { art_metadata :=
               { artist_uid := asset.custom_metadata.art_metadata.artist_uid,
                 artist_name := asset.custom_metadata.art_metadata.artist_name,
                 price := asset.custom_metadata.art_metadata.price,
                 currency := asset.custom_metadata.art_metadata.currency,
                 status := some AssetStatus.sold,
                 category := asset.custom_metadata.art_metadata.category,
                 owners := asset.custom_metadata.art_metadata.owners ++
                   [{ user_id := some uidv,
                      user_name := some (match w.users uidv with
                        | some p => jsOrStr p.displayName "Anonymous"
                        | none => "Anonymous"),
                      purchase_date := some (toString now),
                      transaction_id := some tid }],
                 current_owner := none } } },
         userAssets := addUserAsset w.userAssets uidv aid
           { transactionId := tid, purchaseDate := toString now,
             price := session.amount_total.getD 0 / 100, currency := "USD" } now }) := by
  simp only [webhookPOST, hmeta, Option.getD_some, beq_self_eq_true, if_true, ha, hu, hwi,
    Bool.or_self, Bool.or_false, Bool.false_or, addServerTransaction, hwal, addAssetOwner,
    updateAssetMetadata, hasset, jsOrStr, jsOrOptStr, Option.or, if_false]
  simp [withTimestamp]

/-- C5: for an asset with status "sale" and price 100, a webhook delivery of
a completed checkout session with amount_total 10000 (cents) makes the asset's
owner (the last element of the owner array, the implicitly-current owner of
the flat schema) the buyer with the fresh transaction id, leaves the buyer's
wallet with exactly one DEBIT transaction of amount 100 = 10000 / 100, and
sets the asset's status to "sold". -/
theorem C5_theorem (w : World) (session : CheckoutSession)
    (aid uidv wid tid : String) (now : Nat) (wl : Wallet) (asset : ContentstackAsset)
    (hmeta : session.metadata =
      some { artworkId := some aid, userId := some uidv, walletId := some wid })
    (ha : aid.isEmpty = false) (hu : uidv.isEmpty = false) (hwi : wid.isEmpty = false)
    (hwal : w.wallets wid = some wl)
    (hempty : wl.transactions = [])
    (hasset : w.assets aid = some asset)
    (hstatus : asset.custom_metadata.art_metadata.status = some AssetStatus.sale)
    (hprice : asset.custom_metadata.art_metadata.price = some 100)
    (hamt : session.amount_total = some 10000) :
    (webhookPOST w { type := "checkout.session.completed", session := session } tid now).1.success = true ∧
    ((webhookPOST w { type := "checkout.session.completed", session := session } tid now).2.assets aid).map
        (fun a => a.custom_metadata.art_metadata.status) = some (some AssetStatus.sold) ∧
    (((webhookPOST w { type := "checkout.session.completed", session := session } tid now).2.assets aid).bind
        (fun a => currentOwnerOfOwners a.custom_metadata.art_metadata)).bind OwnerRecord.user_id = some uidv ∧
    (((webhookPOST w { type := "checkout.session.completed", session := session } tid now).2.assets aid).bind
        (fun a => currentOwnerOfOwners a.custom_metadata.art_metadata)).bind OwnerRecord.transaction_id = some tid ∧
    ((webhookPOST w { type := "checkout.session.completed", session := session } tid now).2.wallets wid).map
        Wallet.transactions =
      some [{ id := tid, type := TxType.DEBIT, amount := 100, timestamp := now,
              reference := { assetUid := some aid,
                             stripePaymentId := some session.payment_intent,
                             description := some ("Artwork purchase: " ++ aid) } }] := by
  rw [webhookPOST_completed w session aid uidv wid tid now wl asset hmeta ha hu hwi hwal hasset]
  refine ⟨rfl, ?_, ?_, ?_, ?_⟩
  · simp [Store.set]
  · simp [Store.set, currentOwnerOfOwners, List.getLast?_concat]
  · simp [Store.set, currentOwnerOfOwners, List.getLast?_concat]
  · simp [Store.set, arrayUnion, hempty, hamt]
    norm_num

/-- C5 witness: the theorem applied to the fresh-sale sample world. -/
theorem C5_witness :
    (webhookPOST sampleWorld { type := "checkout.session.completed", session := sampleSession } "TX_AAAAAAA001" 1).1.success = true ∧
    ((webhookPOST sampleWorld { type := "checkout.session.completed", session := sampleSession } "TX_AAAAAAA001" 1).2.assets "asset1").map
        (fun a => a.custom_metadata.art_metadata.status) = some (some AssetStatus.sold) ∧
    (((webhookPOST sampleWorld { type := "checkout.session.completed", session := sampleSession } "TX_AAAAAAA001" 1).2.assets "asset1").bind
        (fun a => currentOwnerOfOwners a.custom_metadata.art_metadata)).bind OwnerRecord.user_id = some "buyer1" ∧
    (((webhookPOST sampleWorld { type := "checkout.session.completed", session := sampleSession } "TX_AAAAAAA001" 1).2.assets "asset1").bind
        (fun a => currentOwnerOfOwners a.custom_metadata.art_metadata)).bind OwnerRecord.transaction_id = some "TX_AAAAAAA001" ∧
    ((webhookPOST sampleWorld { type := "checkout.session.completed", session := sampleSession } "TX_AAAAAAA001" 1).2.wallets "wallet1").map
        Wallet.transactions =
      some [{ id := "TX_AAAAAAA001", type := TxType.DEBIT, amount := 100, timestamp := 1,
              reference := { assetUid := some "asset1",
                             stripePaymentId := some sampleSession.payment_intent,
                             description := some ("Artwork purchase: " ++ "asset1") } }] :=
  C5_theorem sampleWorld sampleSession "asset1" "buyer1" "wallet1" "TX_AAAAAAA001" 1
    { balance := 0, transactions := [] } saleAsset rfl rfl rfl rfl rfl rfl rfl rfl rfl rfl

/-- Characterization of a full (non-short-circuited) fallback settlement:
with a paid session, complete metadata, the requester equal to the buyer, an
asset whose stored `current_owner` does not name the buyer, a wallet holding
no transaction referencing the payment id, and an existing profile with a
wallet id, the handler appends the DEBIT transaction, appends the buyer to
the owner array (status `sold`, `current_owner` cleared), removes the asset
from the previous owner's index when `current_owner` named one different from
the buyer, adds it to the buyer's index, reports success — and never triggers
the automation, because the confirmation re-read checks `current_owner`,
which the ownership write does not populate. -/
theorem processPOST_full_run
    (w : World) (session : CheckoutSession) (lookup : String → Option CheckoutSession)
    (sid aid uidv wid tid : String) (now : Nat)
    (profile : UserProfile) (wl : Wallet) (asset : ContentstackAsset)
    (hsid : sid.isEmpty = false)
    (hlook : lookup sid = some session)
    (hps : session.payment_status = "paid")
    (hmeta : session.metadata =
      some { artworkId := some aid, userId := some uidv, walletId := some wid })
    (ha : aid.isEmpty = false) (hu : uidv.isEmpty = false) (hwi : wid.isEmpty = false)
    (hasset : w.assets aid = some asset)
    (hnotown : ownerMatches asset.custom_metadata.art_metadata.current_owner uidv = false)
    (hprof : w.users uidv = some profile) (hpw : truthyStr profile.walletId = true)
    (hwal : w.wallets wid = some wl)
    (hnopid : ∀ t ∈ wl.transactions,
      ¬ t.reference.stripePaymentId = some session.payment_intent) :
    processPOST w { auth := some uidv, sessionId := some sid } lookup tid now =
      ({ status := 200, success := true,
         message := some "Purchase processed successfully",
         transactionId := some tid },
       { w with
         wallets := Store.set w.wallets wid
           { balance := wl.balance - session.amount_total.getD 0 / 100,
             transactions := wl.transactions ++
               [{ id := tid, type := TxType.DEBIT,
                  amount := session.amount_total.getD 0 / 100, timestamp := now,
                  reference := { assetUid := some aid,
                                 stripePaymentId := some session.payment_intent,
                                 description := some ("Artwork purchase: " ++ aid) } }] },
         assets := Store.set w.assets aid
           { title := asset.title, description := asset.description, tags := asset.tags,
             custom_metadata := { art_metadata :=
               { artist_uid := asset.custom_metadata.art_metadata.artist_uid,
                 artist_name := asset.custom_metadata.art_metadata.artist_name,
                 price := asset.custom_metadata.art_metadata.price,
                 currency := asset.custom_metadata.art_metadata.currency,
                 status := some AssetStatus.sold,
                 category := asset.custom_metadata.art_metadata.category,
                 owners := asset.custom_metadata.art_metadata.owners ++
                   [{ user_id := some uidv,
                      user_name := jsOrOptStr profile.displayName (some "Anonymous"),
                      purchase_date := some (toString now),
                      transaction_id := some tid }],
                 current_owner := none } } },
         userAssets := addUserAsset
           (match ownerIdOrNull asset.custom_metadata.art_metadata.current_owner with
            | some prev =>
              if prev != uidv then removeUserAsset w.userAssets prev aid else w.userAssets
            | none => w.userAssets)
           uidv aid
           { transactionId := tid, purchaseDate := toString now,
             price := session.amount_total.getD 0 / 100, currency := "USD" } now },
       false) := by
  have hfind : wl.transactions.find?
      (fun t => t.reference.stripePaymentId == some session.payment_intent) = none := by
    rw [List.find?_eq_none]
    intro x hx
    simpa using hnopid x hx
  have hmem :
      ({ id := tid, type := TxType.DEBIT,
         amount := session.amount_total.getD 0 / 100, timestamp := now,
         reference := { assetUid := some aid,
                        stripePaymentId := some session.payment_intent,
                        description := some ("Artwork purchase: " ++ aid) } } : Transaction) ∉
        wl.transactions := by
    intro hin
    exact hnopid _ hin rfl
  have hsid' : truthyStr (some sid) = true := by simp [truthyStr, hsid]
  simp only [processPOST, hsid', Bool.not_false, Bool.not_true, hlook, hps,
    Option.getD_some, hmeta, ha, hu, hwi, Bool.or_self, Bool.or_false, Bool.false_or,
    bne_self_eq_false, hasset, hnotown, if_true, if_false, hprof, hpw,
    hwal, hfind, addServerTransaction, addAssetOwner, updateAssetMetadata,
    arrayUnion, withTimestamp, jsOrStr, jsOrOptStr, Option.or, hmem]
  rcases hoi : ownerIdOrNull asset.custom_metadata.art_metadata.current_owner with _ | prev
  · simp [hoi, hmem, Store.set]
  · rcases eq_or_ne prev uidv with hpe | hpe
    · simp [hoi, hmem, hpe, Store.set]
    · simp [hoi, hmem, hpe, Store.set]

/-- Characterization of the fallback handler's transaction-based idempotency
short-circuit: when the asset's stored `current_owner` does not name the
requester but the wallet already holds a transaction referencing the payment
id, the handler returns success with "Purchase already processed" and the
existing transaction's id, and mutates nothing. -/
theorem processPOST_already
    (w : World) (session : CheckoutSession) (lookup : String → Option CheckoutSession)
    (sid aid uidv wid tid : String) (now : Nat)
    (profile : UserProfile) (wl : Wallet) (asset : ContentstackAsset) (t0 : Transaction)
    (hsid : sid.isEmpty = false)
    (hlook : lookup sid = some session)
    (hps : session.payment_status = "paid")
    (hmeta : session.metadata =
      some { artworkId := some aid, userId := some uidv, walletId := some wid })
    (ha : aid.isEmpty = false) (hu : uidv.isEmpty = false) (hwi : wid.isEmpty = false)
    (hasset : w.assets aid = some asset)
    (hnotown : ownerMatches asset.custom_metadata.art_metadata.current_owner uidv = false)
    (hprof : w.users uidv = some profile) (hpw : truthyStr profile.walletId = true)
    (hwal : w.wallets wid = some wl)
    (hfind : wl.transactions.find?
      (fun t => t.reference.stripePaymentId == some session.payment_intent) = some t0) :
    processPOST w { auth := some uidv, sessionId := some sid } lookup tid now =
      ({ status := 200, success := true,
         message := some "Purchase already processed",
         transactionId := some t0.id }, w, false) := by
  have hsid' : truthyStr (some sid) = true := by simp [truthyStr, hsid]
  simp only [processPOST, hsid', Bool.not_false, Bool.not_true, hlook, hps,
    Option.getD_some, hmeta, ha, hu, hwi, Bool.or_self, Bool.or_false, Bool.false_or,
    bne_self_eq_false, hasset, hnotown, if_true, if_false, hprof, hpw, hwal, hfind]
  simp

/-- C1 (amended): the manual-fallback handler is sequentially idempotent.
Settling a completed payment through it once succeeds; invoking it a second
time with the same payment id appends no second ledger transaction — the
second call short-circuits with "Purchase already processed" returning the
first call's transaction id, the world is unchanged, and exactly one
transaction referencing the payment id exists afterward. (The webhook
handler, by contrast, is not idempotent: see the counterexample.) -/
theorem C1_theorem
    (w : World) (session : CheckoutSession) (lookup : String → Option CheckoutSession)
    (sid aid uidv wid tid tid2 : String) (now now2 : Nat)
    (profile : UserProfile) (wl : Wallet) (asset : ContentstackAsset)
    (hsid : sid.isEmpty = false)
    (hlook : lookup sid = some session)
    (hps : session.payment_status = "paid")
    (hmeta : session.metadata =
      some { artworkId := some aid, userId := some uidv, walletId := some wid })
    (ha : aid.isEmpty = false) (hu : uidv.isEmpty = false) (hwi : wid.isEmpty = false)
    (hasset : w.assets aid = some asset)
    (hnotown : ownerMatches asset.custom_metadata.art_metadata.current_owner uidv = false)
    (hprof : w.users uidv = some profile) (hpw : truthyStr profile.walletId = true)
    (hwal : w.wallets wid = some wl)
    (hnopid : ∀ t ∈ wl.transactions,
      ¬ t.reference.stripePaymentId = some session.payment_intent) :
    (processPOST w { auth := some uidv, sessionId := some sid } lookup tid now).1.success = true ∧
    processPOST (processPOST w { auth := some uidv, sessionId := some sid } lookup tid now).2.1
        { auth := some uidv, sessionId := some sid } lookup tid2 now2 =
      ({ status := 200, success := true,
         message := some "Purchase already processed", transactionId := some tid },
       (processPOST w { auth := some uidv, sessionId := some sid } lookup tid now).2.1,
       false) ∧
    ((processPOST w { auth := some uidv, sessionId := some sid } lookup tid now).2.1.wallets wid).map
        (fun x => paymentTxCount session.payment_intent x.transactions) = some 1 := by
  have h1 := processPOST_full_run w session lookup sid aid uidv wid tid now profile wl asset
    hsid hlook hps hmeta ha hu hwi hasset hnotown hprof hpw hwal hnopid
  have hfilter : wl.transactions.filter
      (fun t => t.reference.stripePaymentId == some session.payment_intent) = [] := by
    rw [List.filter_eq_nil_iff]
    intro x hx
    simpa using hnopid x hx
  have hnone : wl.transactions.find?
      (fun t => t.reference.stripePaymentId == some session.payment_intent) = none := by
    rw [List.find?_eq_none]
    intro x hx
    simpa using hnopid x hx
  have hfind2 :
      (wl.transactions ++
        ([{ id := tid, type := TxType.DEBIT,
            amount := session.amount_total.getD 0 / 100, timestamp := now,
            reference := { assetUid := some aid,
                           stripePaymentId := some session.payment_intent,
                           description := some ("Artwork purchase: " ++ aid) } }] :
          List Transaction)).find?
        (fun t => t.reference.stripePaymentId == some session.payment_intent) =
      some { id := tid, type := TxType.DEBIT,
             amount := session.amount_total.getD 0 / 100, timestamp := now,
             reference := { assetUid := some aid,
                            stripePaymentId := some session.payment_intent,
                            description := some ("Artwork purchase: " ++ aid) } } := by
    rw [List.find?_append, hnone]
    simp
  refine ⟨by rw [h1], ?_, ?_⟩
  · exact processPOST_already _ session lookup sid aid uidv wid tid2 now2 profile _ _
      { id := tid, type := TxType.DEBIT,
        amount := session.amount_total.getD 0 / 100, timestamp := now,
        reference := { assetUid := some aid,
                       stripePaymentId := some session.payment_intent,
                       description := some ("Artwork purchase: " ++ aid) } }
      hsid hlook hps hmeta ha hu hwi
      (by rw [h1]; exact if_pos rfl) (by rfl)
      (by rw [h1]; exact hprof) hpw
      (by rw [h1]; exact if_pos rfl) hfind2
  · rw [h1]
    simp only [Store.set, if_pos rfl, Option.map_some]
    simp [paymentTxCount, List.filter_append, hfilter]

/-- C1 witness: the fallback-idempotency theorem applied to the fresh-sale
sample world. -/
theorem C1_witness :
    (processPOST sampleWorld { auth := some "buyer1", sessionId := some "cs_1" }
        sampleLookup "TX_AAAAAAA001" 1).1.success = true ∧
    processPOST (processPOST sampleWorld { auth := some "buyer1", sessionId := some "cs_1" }
          sampleLookup "TX_AAAAAAA001" 1).2.1
        { auth := some "buyer1", sessionId := some "cs_1" } sampleLookup "TX_AAAAAAA002" 2 =
      ({ status := 200, success := true,
         message := some "Purchase already processed",
         transactionId := some "TX_AAAAAAA001" },
       (processPOST sampleWorld { auth := some "buyer1", sessionId := some "cs_1" }
          sampleLookup "TX_AAAAAAA001" 1).2.1,
       false) ∧
    ((processPOST sampleWorld { auth := some "buyer1", sessionId := some "cs_1" }
        sampleLookup "TX_AAAAAAA001" 1).2.1.wallets "wallet1").map
        (fun x => paymentTxCount sampleSession.payment_intent x.transactions) = some 1 :=
  C1_theorem sampleWorld sampleSession sampleLookup "cs_1" "asset1" "buyer1" "wallet1"
    "TX_AAAAAAA001" "TX_AAAAAAA002" 1 2 buyerProfile { balance := 0, transactions := [] }
    saleAsset rfl (by decide) rfl rfl rfl rfl rfl (by decide) rfl (by decide) rfl
    (by decide) (by simp)

/-- After `addUserAsset`, the target user's collection contains an entry for
the asset in every case (document created, entry appended, or entry already
present). -/
theorem addUserAsset_buyer_any (ua : Store UserAssets) (userId assetUid : String)
    (pd : PurchaseData) (now : Nat) :
    (addUserAsset ua userId assetUid pd now userId).map
      (fun d => d.assets.any (fun a => a.assetUid == assetUid)) = some true := by
  unfold addUserAsset
  cases hdoc : ua userId with
  | none => simp [Store.set]
  | some doc =>
    by_cases hex : doc.assets.any (fun a => a.assetUid == assetUid) = true
    · simp [hex, hdoc]
    · have hex' : doc.assets.any (fun a => a.assetUid == assetUid) = false := by
        simpa using hex
      simp [Store.set, hdoc, hex']

/-- `addUserAsset` touches no other user's document. -/
theorem addUserAsset_other (ua : Store UserAssets) (userId assetUid : String)
    (pd : PurchaseData) (now : Nat) (k : String) (hk : k ≠ userId) :
    addUserAsset ua userId assetUid pd now k = ua k := by
  unfold addUserAsset
  cases hdoc : ua userId with
  | none => simp [Store.set, hk]
  | some doc =>
    by_cases hex : doc.assets.any (fun a => a.assetUid == assetUid) = true
    · simp [hex]
    · have hex' : doc.assets.any (fun a => a.assetUid == assetUid) = false := by
        simpa using hex
      simp [Store.set, hex', hk]

/-- After `removeUserAsset`, the target user's document (when present) holds
no entry for the removed asset. -/
theorem removeUserAsset_clears (ua : Store UserAssets) (userId assetUid : String) :
    ∀ d, removeUserAsset ua userId assetUid userId = some d →
      d.assets.filter (fun a => a.assetUid == assetUid) = [] := by
  intro d hd
  unfold removeUserAsset at hd
  cases hdoc : ua userId with
  | none => simp [hdoc] at hd
  | some doc =>
    by_cases hlen : (doc.assets.filter (fun a => !(a.assetUid == assetUid))).length = doc.assets.length
    · have hd' : ua userId = some d := by simpa [hdoc, hlen] using hd
      rw [hdoc] at hd'
      cases hd'
      have hall := List.filter_length_eq_length.mp hlen
      rw [List.filter_eq_nil_iff]
      intro a ha
      have := hall a ha
      simp at this ⊢
      exact this
    · have hd' : d =
          { userId := doc.userId,
            assets := doc.assets.filter (fun a => !(a.assetUid == assetUid)) } := by
        have := hd
        simp only [hdoc, hlen, ne_eq, not_false_eq_true, if_true, Store.set,
          if_pos rfl, Option.some.injEq] at this
        exact this.symm
      subst hd'
      simp only [List.filter_filter]
      rw [List.filter_eq_nil_iff]
      intro a ha
      simp

/-- C2 (amended): when the same completed payment is delivered twice
sequentially — webhook first, then the manual fallback — the webhook
settlement succeeds, the fallback short-circuits with success returning the
message "Purchase already processed" together with the existing transaction's
id, no store is mutated by the second call, and the buyer's wallet holds
exactly one DEBIT transaction referencing the payment id. -/
theorem C2_theorem
    (w : World) (session : CheckoutSession) (lookup : String → Option CheckoutSession)
    (sid aid uidv wid tid tid2 : String) (now now2 : Nat)
    (profile : UserProfile) (wl : Wallet) (asset : ContentstackAsset)
    (hsid : sid.isEmpty = false)
    (hlook : lookup sid = some session)
    (hps : session.payment_status = "paid")
    (hmeta : session.metadata =
      some { artworkId := some aid, userId := some uidv, walletId := some wid })
    (ha : aid.isEmpty = false) (hu : uidv.isEmpty = false) (hwi : wid.isEmpty = false)
    (hwal : w.wallets wid = some wl)
    (hasset : w.assets aid = some asset)
    (hprof : w.users uidv = some profile) (hpw : truthyStr profile.walletId = true)
    (hnopid : ∀ t ∈ wl.transactions,
      ¬ t.reference.stripePaymentId = some session.payment_intent) :
    (webhookPOST w { type := "checkout.session.completed", session := session } tid now).1.success = true ∧
    processPOST (webhookPOST w { type := "checkout.session.completed", session := session } tid now).2
        { auth := some uidv, sessionId := some sid } lookup tid2 now2 =
      ({ status := 200, success := true,
         message := some "Purchase already processed", transactionId := some tid },
       (webhookPOST w { type := "checkout.session.completed", session := session } tid now).2,
       false) ∧
    ((webhookPOST w { type := "checkout.session.completed", session := session } tid now).2.wallets wid).map
        (fun x => debitPaymentTxCount session.payment_intent x.transactions) = some 1 := by
  have h1 := webhookPOST_completed w session aid uidv wid tid now wl asset
    hmeta ha hu hwi hwal hasset
  have hmem :
      ({ id := tid, type := TxType.DEBIT,
         amount := session.amount_total.getD 0 / 100, timestamp := now,
         reference := { assetUid := some aid,
                        stripePaymentId := some session.payment_intent,
                        description := some ("Artwork purchase: " ++ aid) } } : Transaction) ∉
        wl.transactions := by
    intro hin
    exact hnopid _ hin rfl
  have harr : arrayUnion wl.transactions
      { id := tid, type := TxType.DEBIT,
        amount := session.amount_total.getD 0 / 100, timestamp := now,
        reference := { assetUid := some aid,
                       stripePaymentId := some session.payment_intent,
                       description := some ("Artwork purchase: " ++ aid) } } =
      wl.transactions ++
        [{ id := tid, type := TxType.DEBIT,
           amount := session.amount_total.getD 0 / 100, timestamp := now,
           reference := { assetUid := some aid,
                          stripePaymentId := some session.payment_intent,
                          description := some ("Artwork purchase: " ++ aid) } }] := if_neg hmem
  have hnone : wl.transactions.find?
      (fun t => t.reference.stripePaymentId == some session.payment_intent) = none := by
    rw [List.find?_eq_none]
    intro x hx
    simpa using hnopid x hx
  have hfind2 :
      (arrayUnion wl.transactions
        { id := tid, type := TxType.DEBIT,
          amount := session.amount_total.getD 0 / 100, timestamp := now,
          reference := { assetUid := some aid,
                         stripePaymentId := some session.payment_intent,
                         description := some ("Artwork purchase: " ++ aid) } }).find?
        (fun t => t.reference.stripePaymentId == some session.payment_intent) =
      some { id := tid, type := TxType.DEBIT,
             amount := session.amount_total.getD 0 / 100, timestamp := now,
             reference := { assetUid := some aid,
                            stripePaymentId := some session.payment_intent,
                            description := some ("Artwork purchase: " ++ aid) } } := by
    rw [harr, List.find?_append, hnone]
    simp
  have hfilterD : wl.transactions.filter
      (fun t => t.type == TxType.DEBIT &&
        t.reference.stripePaymentId == some session.payment_intent) = [] := by
    rw [List.filter_eq_nil_iff]
    intro x hx
    simp [hnopid x hx]
  refine ⟨by rw [h1], ?_, ?_⟩
  · exact processPOST_already _ session lookup sid aid uidv wid tid2 now2 profile _ _
      { id := tid, type := TxType.DEBIT,
        amount := session.amount_total.getD 0 / 100, timestamp := now,
        reference := { assetUid := some aid,
                       stripePaymentId := some session.payment_intent,
                       description := some ("Artwork purchase: " ++ aid) } }
      hsid hlook hps hmeta ha hu hwi
      (by rw [h1]; exact if_pos rfl) (by rfl)
      (by rw [h1]; exact hprof) hpw
      (by rw [h1]; exact if_pos rfl) hfind2
  · rw [h1]
    simp only [Store.set, if_pos rfl, Option.map_some]
    simp [debitPaymentTxCount, harr, List.filter_append, hfilterD]

/-- C2 witness: the double-delivery theorem applied to the fresh-sale sample
world. -/
theorem C2_witness :
    (webhookPOST sampleWorld { type := "checkout.session.completed", session := sampleSession }
        "TX_AAAAAAA001" 1).1.success = true ∧
    processPOST (webhookPOST sampleWorld
          { type := "checkout.session.completed", session := sampleSession } "TX_AAAAAAA001" 1).2
        { auth := some "buyer1", sessionId := some "cs_1" } sampleLookup "TX_AAAAAAA003" 3 =
      ({ status := 200, success := true,
         message := some "Purchase already processed",
         transactionId := some "TX_AAAAAAA001" },
       (webhookPOST sampleWorld
          { type := "checkout.session.completed", session := sampleSession } "TX_AAAAAAA001" 1).2,
       false) ∧
    ((webhookPOST sampleWorld { type := "checkout.session.completed", session := sampleSession }
        "TX_AAAAAAA001" 1).2.wallets "wallet1").map
        (fun x => debitPaymentTxCount sampleSession.payment_intent x.transactions) = some 1 :=
  C2_theorem sampleWorld sampleSession sampleLookup "cs_1" "asset1" "buyer1" "wallet1"
    "TX_AAAAAAA001" "TX_AAAAAAA003" 1 3 buyerProfile { balance := 0, transactions := [] }
    saleAsset rfl (by decide) rfl rfl rfl rfl rfl (by decide) (by decide) (by decide) rfl
    (by simp)

/-- C4 (amended): a fallback settlement of an asset whose stored
`current_owner` names a previous owner different from the buyer succeeds,
removes the asset from the previous owner's UserAssetIndex, and adds it to
the buyer's UserAssetIndex. (Webhook settlements never remove: see the
counterexample.) -/
theorem C4_theorem
    (w : World) (session : CheckoutSession) (lookup : String → Option CheckoutSession)
    (sid aid uidv wid tid : String) (now : Nat)
    (profile : UserProfile) (wl : Wallet) (asset : ContentstackAsset)
    (prevRec : OwnerRecord) (prev : String)
    (hsid : sid.isEmpty = false)
    (hlook : lookup sid = some session)
    (hps : session.payment_status = "paid")
    (hmeta : session.metadata =
      some { artworkId := some aid, userId := some uidv, walletId := some wid })
    (ha : aid.isEmpty = false) (hu : uidv.isEmpty = false) (hwi : wid.isEmpty = false)
    (hasset : w.assets aid = some asset)
    (hco : asset.custom_metadata.art_metadata.current_owner = some prevRec)
    (hpid : prevRec.user_id = some prev)
    (hpne : prev.isEmpty = false)
    (hneq : prev ≠ uidv)
    (hprof : w.users uidv = some profile) (hpw : truthyStr profile.walletId = true)
    (hwal : w.wallets wid = some wl)
    (hnopid : ∀ t ∈ wl.transactions,
      ¬ t.reference.stripePaymentId = some session.payment_intent) :
    (processPOST w { auth := some uidv, sessionId := some sid } lookup tid now).1.success = true ∧
    (∀ d, (processPOST w { auth := some uidv, sessionId := some sid } lookup tid now).2.1.userAssets prev =
        some d → d.assets.filter (fun a => a.assetUid == aid) = []) ∧
    ((processPOST w { auth := some uidv, sessionId := some sid } lookup tid now).2.1.userAssets uidv).map
        (fun d => d.assets.any (fun a => a.assetUid == aid)) = some true := by
  have hnotown : ownerMatches asset.custom_metadata.art_metadata.current_owner uidv = false := by
    simp [ownerMatches, hco, hpid, hneq]
  have h1 := processPOST_full_run w session lookup sid aid uidv wid tid now profile wl asset
    hsid hlook hps hmeta ha hu hwi hasset hnotown hprof hpw hwal hnopid
  have hoi : ownerIdOrNull asset.custom_metadata.art_metadata.current_owner = some prev := by
    simp [ownerIdOrNull, hco, hpid, hpne]
  rw [h1]
  have hne' : (prev != uidv) = true := by simp [hneq]
  refine ⟨rfl, ?_, ?_⟩
  · intro d hd
    rw [hoi] at hd
    simp only [hne', if_true] at hd
    rw [addUserAsset_other _ _ _ _ _ _ hneq] at hd
    exact removeUserAsset_clears _ _ _ d hd
  · rw [hoi]
    simp only [hne', if_true]
    exact addUserAsset_buyer_any _ _ _ _ _

/-- C4 witness: the fallback-resale theorem applied to the resale world,
where `prev1` is the stored current owner and also holds the asset in its
index. -/
theorem C4_witness :
    (processPOST resaleWorld { auth := some "buyer1", sessionId := some "cs_1" }
        sampleLookup "TX_AAAAAAA006" 1).1.success = true ∧
    (∀ d, (processPOST resaleWorld { auth := some "buyer1", sessionId := some "cs_1" }
        sampleLookup "TX_AAAAAAA006" 1).2.1.userAssets "prev1" =
        some d → d.assets.filter (fun a => a.assetUid == "asset1") = []) ∧
    ((processPOST resaleWorld { auth := some "buyer1", sessionId := some "cs_1" }
        sampleLookup "TX_AAAAAAA006" 1).2.1.userAssets "buyer1").map
        (fun d => d.assets.any (fun a => a.assetUid == "asset1")) = some true :=
  C4_theorem resaleWorld sampleSession sampleLookup "cs_1" "asset1" "buyer1" "wallet1"
    "TX_AAAAAAA006" 1 buyerProfile { balance := 0, transactions := [] } resaleAsset
    prevOwnerRecord "prev1" rfl (by decide) rfl rfl rfl rfl rfl (by decide) rfl rfl rfl
    (by decide) (by decide) (by decide) (by decide) (by simp)

/-- Folding the signed-balance step from `b` equals `b` plus the signed sum
from zero. -/
theorem foldlBalance_shift (txs : List Transaction) :
    ∀ b : ℚ, txs.foldl
        (fun balance tx =>
          match tx.type with
          | TxType.CREDIT => balance + tx.amount
          | TxType.DEBIT => balance - tx.amount)
        b = b + calculateBalanceFromTransactions txs := by
  induction txs with
  | nil => intro b; simp [calculateBalanceFromTransactions]
  | cons t rest ih =>
    intro b
    cases htt : t.type
    · simp only [calculateBalanceFromTransactions, List.foldl_cons, htt]
      rw [ih (b - t.amount), ih (0 - t.amount)]
      ring
    · simp only [calculateBalanceFromTransactions, List.foldl_cons, htt]
      rw [ih (b + t.amount), ih (0 + t.amount)]
      ring

/-- The running balance of `ledgerScan` is the starting balance plus the
signed sum of the scanned transactions. -/
theorem ledgerScan_snd (txs : List Transaction) :
    ∀ (i : Nat) (bal : ℚ) (lastTs : Nat),
      (ledgerScan txs i bal lastTs).2 = bal + calculateBalanceFromTransactions txs := by
  induction txs with
  | nil => intro i bal lastTs; simp [ledgerScan, calculateBalanceFromTransactions]
  | cons t rest ih =>
    intro i bal lastTs
    cases htt : t.type
    · simp only [ledgerScan, htt, ih]
      simp only [calculateBalanceFromTransactions, List.foldl_cons, htt]
      rw [foldlBalance_shift rest (0 - t.amount)]
      rw [← calculateBalanceFromTransactions]
      ring
    · simp only [ledgerScan, htt, ih]
      simp only [calculateBalanceFromTransactions, List.foldl_cons, htt]
      rw [foldlBalance_shift rest (0 + t.amount)]
      rw [← calculateBalanceFromTransactions]
      ring

/-- With well-formed ids and amounts and ordered timestamps (from the running
lower bound), `ledgerScan` reports no errors. -/
theorem ledgerScan_errors_nil (txs : List Transaction) :
    ∀ (i : Nat) (bal : ℚ) (lastTs : Nat),
      (∀ t ∈ txs, 10 ≤ t.id.length ∧ 0 < t.amount) →
      tsOrderedFrom lastTs txs →
      (ledgerScan txs i bal lastTs).1 = [] := by
  induction txs with
  | nil => intro i bal lastTs _ _; simp [ledgerScan]
  | cons t rest ih =>
    intro i bal lastTs hwf hord
    obtain ⟨hid, hamt⟩ := hwf t (List.mem_cons_self t rest)
    obtain ⟨hle, hord'⟩ := hord
    simp only [ledgerScan]
    rw [if_neg (by omega), if_neg (by exact not_le.mpr hamt), if_neg (by omega)]
    simpa using ih (i + 1) _ t.timestamp (fun x hx => hwf x (List.mem_cons_of_mem t hx)) hord'

/-- Appending a transaction whose timestamp dominates all existing ones
preserves timestamp ordering. -/
theorem tsOrderedFrom_append (txs : List Transaction) :
    ∀ (lastTs : Nat) (tx : Transaction),
      tsOrderedFrom lastTs txs →
      (∀ t ∈ txs, t.timestamp ≤ tx.timestamp) →
      lastTs ≤ tx.timestamp →
      tsOrderedFrom lastTs (txs ++ [tx]) := by
  induction txs with
  | nil => intro lastTs tx _ _ hle; exact ⟨hle, trivial⟩
  | cons t rest ih =>
    intro lastTs tx hord hdom hle
    obtain ⟨h1, h2⟩ := hord
    exact ⟨h1, ih t.timestamp tx h2 (fun x hx => hdom x (List.mem_cons_of_mem t hx))
      (hdom t (List.mem_cons_self t rest))⟩

/-- C7 (amended): for a wallet whose balance equals the signed sum of its
transactions, appending a (not already present) transaction through
`addServerTransaction` preserves the equality, and `verifyLedgerIntegrity`
computes the same calculated balance; it moreover reports the wallet as valid
provided every transaction — the appended one included — carries an id of
length at least 10 and a positive amount, and timestamps are non-decreasing
with the new transaction stamped no earlier than the existing ones. -/
theorem C7_theorem (wallets : Store Wallet) (walletId : String) (w : Wallet)
    (tx : TransactionInput) (now : Nat) (wallets2 : Store Wallet) (nb : ℚ) (w2 : Wallet)
    (hwal : wallets walletId = some w)
    (hbal : w.balance = calculateBalanceFromTransactions w.transactions)
    (hfresh : withTimestamp tx now ∉ w.transactions)
    (hrun : addServerTransaction wallets walletId tx now = Except.ok (wallets2, nb))
    (hw2 : wallets2 walletId = some w2)
    (hids : ∀ t ∈ w.transactions, 10 ≤ t.id.length)
    (hamts : ∀ t ∈ w.transactions, 0 < t.amount)
    (hts : tsOrderedFrom 0 w.transactions)
    (hnow : ∀ t ∈ w.transactions, t.timestamp ≤ now)
    (htxid : 10 ≤ tx.id.length) (htxamt : 0 < tx.amount) :
    w2.balance = calculateBalanceFromTransactions w2.transactions ∧
    (verifyLedgerIntegrity w2).calculatedBalance = w2.balance ∧
    (verifyLedgerIntegrity w2).valid = true := by
  unfold addServerTransaction at hrun
  rw [hwal] at hrun
  simp only [Except.ok.injEq, Prod.mk.injEq] at hrun
  obtain ⟨hstore, hnb⟩ := hrun
  rw [← hstore] at hw2
  simp only [Store.set, eq_self_iff_true, if_true, Option.some.injEq] at hw2
  subst hw2
  have harr : arrayUnion w.transactions (withTimestamp tx now) =
      w.transactions ++ [withTimestamp tx now] := if_neg hfresh
  have hbal2 : (match tx.type with
      | TxType.CREDIT => w.balance + tx.amount
      | TxType.DEBIT => w.balance - tx.amount) =
      calculateBalanceFromTransactions (w.transactions ++ [withTimestamp tx now]) := by
    simp only [calculateBalanceFromTransactions, List.foldl_append, List.foldl_cons,
      List.foldl_nil]
    rw [← calculateBalanceFromTransactions]
    cases htt : tx.type <;> simp [withTimestamp, htt, hbal]
  have hwf : ∀ t ∈ w.transactions ++ [withTimestamp tx now],
      10 ≤ t.id.length ∧ 0 < t.amount := by
    intro t ht
    rcases List.mem_append.mp ht with h | h
    · exact ⟨hids t h, hamts t h⟩
    · simp only [List.mem_singleton] at h
      subst h
      exact ⟨htxid, htxamt⟩
  have hord : tsOrderedFrom 0 (w.transactions ++ [withTimestamp tx now]) :=
    tsOrderedFrom_append w.transactions 0 (withTimestamp tx now) hts
      (fun t ht => hnow t ht) (Nat.zero_le _)
  have hscanerr := ledgerScan_errors_nil (w.transactions ++ [withTimestamp tx now]) 0 0 0 hwf hord
  have hscanbal := ledgerScan_snd (w.transactions ++ [withTimestamp tx now]) 0 0 0
  refine ⟨?_, ?_, ?_⟩
  · simpa [harr] using hbal2
  · simp only [verifyLedgerIntegrity, harr, hscanbal]
    rw [← hbal2]
    simp
  · simp only [verifyLedgerIntegrity, harr, hscanerr, hscanbal]
    rw [← hbal2]
    simp

/-- C7 witness: the amended ledger theorem applied to a well-formed
one-transaction wallet. -/
theorem C7_witness :
    c7goodAfter.balance = calculateBalanceFromTransactions c7goodAfter.transactions ∧
    (verifyLedgerIntegrity c7goodAfter).calculatedBalance = c7goodAfter.balance ∧
    (verifyLedgerIntegrity c7goodAfter).valid = true :=
  C7_theorem c7goodStore "w1" c7goodWallet c7tx 1
    (Store.set c7goodStore "w1" c7goodAfter) ((5 : ℚ) - 2) c7goodAfter
    rfl (by norm_num [c7goodWallet, calculateBalanceFromTransactions]) (by decide)
    rfl rfl (by decide) (by norm_num [c7goodWallet]) (by decide) (by decide)
    (by decide) (by norm_num [c7tx])

/-- C10: `addUserAsset` is idempotent at its public interface. If the user's
collection document already holds an entry for the asset, the call leaves the
whole store unchanged; for a new asset id it appends exactly one entry,
leaves the existing entries unchanged (they form the prefix), and touches no
other user's document. -/
theorem C10_theorem (store : Store UserAssets) (userId assetUid : String)
    (doc : UserAssets) (pd : PurchaseData) (now : Nat)
    (hdoc : store userId = some doc) :
    (doc.assets.any (fun a => a.assetUid == assetUid) = true →
      addUserAsset store userId assetUid pd now = store) ∧
    (doc.assets.any (fun a => a.assetUid == assetUid) = false →
      addUserAsset store userId assetUid pd now userId =
        some { userId := doc.userId,
               assets := doc.assets ++
                 [{ assetUid := assetUid, transactionId := pd.transactionId,
                    purchaseDate := pd.purchaseDate, price := pd.price,
                    currency := pd.currency, addedAt := now }] } ∧
      ∀ k, k ≠ userId → addUserAsset store userId assetUid pd now k = store k) := by
  constructor
  · intro hex
    simp [addUserAsset, hdoc, hex]
  · intro hex
    constructor
    · simp [addUserAsset, hdoc, hex, Store.set]
    · intro k hk
      simp [addUserAsset, hdoc, hex, Store.set, hk]

/-- C10 witness: the idempotence theorem applied to a one-entry collection
document (whose entry already carries the asset id "a1"). -/
theorem C10_witness :
    (c10doc.assets.any (fun a => a.assetUid == "a1") = true →
      addUserAsset c10store "u1" "a1" c10purchase 1 = c10store) ∧
    (c10doc.assets.any (fun a => a.assetUid == "a1") = false →
      addUserAsset c10store "u1" "a1" c10purchase 1 "u1" =
        some { userId := c10doc.userId,
               assets := c10doc.assets ++
                 [{ assetUid := "a1", transactionId := c10purchase.transactionId,
                    purchaseDate := c10purchase.purchaseDate, price := c10purchase.price,
                    currency := c10purchase.currency, addedAt := 1 }] } ∧
      ∀ k, k ≠ "u1" → addUserAsset c10store "u1" "a1" c10purchase 1 k = c10store k) :=
  C10_theorem c10store "u1" "a1" c10doc c10purchase 1 rfl

/-- The offer returned by a successful `updateOfferStatus` carries the
decision's status. -/
theorem updateOfferStatus_ok_status (offers : List Offer) (offerId : String)
    (decision : OfferDecision) (ownerId : String) (offers2 : List Offer) (u : Offer)
    (h : updateOfferStatus offers offerId decision ownerId = Except.ok (offers2, u)) :
    u.status = decision.toStatus := by
  unfold updateOfferStatus at h
  cases hf : offers.find? (fun o => o.id == offerId) with
  | none => simp [hf] at h
  | some od =>
    simp only [hf] at h
    by_cases hs : od.status = OfferStatus.pending
    · rw [if_neg (by simp [hs])] at h
      simp only [Except.ok.injEq, Prod.mk.injEq] at h
      rw [← h.2]
    · rw [if_pos hs] at h
      cases h

/-- C9: when the current owner accepts a pending offer, the request succeeds
and the offer's status is "accepted" even when the best-effort price update
against the asset store fails (the failure is not surfaced and the asset
store is left unchanged); when the price update succeeds, the asset's listed
price becomes the accepted amount. -/
theorem C9_theorem (w : World) (uid aid oid : String)
    (asset : ContentstackAsset) (offer : Offer) (offers2 : List Offer) (updatedOffer : Offer)
    (hane : aid.isEmpty = false) (hone : oid.isEmpty = false)
    (hasset : w.assets aid = some asset)
    (howner : ownerMatches asset.custom_metadata.art_metadata.current_owner uid = true)
    (hfind : (getAssetOffers w.offers aid).find? (fun o => o.id == oid) = some offer)
    (hupd : updateOfferStatus w.offers oid OfferDecision.accepted uid =
      Except.ok (offers2, updatedOffer)) :
    (offerPUT w
        { auth := some uid, assetUid := some aid, offerId := some oid,
          body := some OfferDecision.accepted } false).1 =
      { status := 200, success := true, message := some "Offer accepted successfully",
        offerStatus := some OfferStatus.accepted } ∧
    (offerPUT w
        { auth := some uid, assetUid := some aid, offerId := some oid,
          body := some OfferDecision.accepted } false).2.assets = w.assets ∧
    (offerPUT w
        { auth := some uid, assetUid := some aid, offerId := some oid,
          body := some OfferDecision.accepted } false).2.offers = offers2 ∧
    (∀ A, (offerPUT w
        { auth := some uid, assetUid := some aid, offerId := some oid,
          body := some OfferDecision.accepted } true).2.assets aid = some A →
      A.custom_metadata.art_metadata.price = some offer.amount) := by
  have hstat := updateOfferStatus_ok_status w.offers oid OfferDecision.accepted uid
    offers2 updatedOffer hupd
  have hta : truthyStr (some aid) = true := by simp [truthyStr, hane]
  have hto : truthyStr (some oid) = true := by simp [truthyStr, hone]
  simp only [offerPUT, hta, hto, Bool.not_true, Bool.and_self, if_false,
    Option.getD_some, hasset, howner, hfind, hupd, hstat, OfferDecision.toStatus,
    updateAssetMetadata, Store.set, Bool.false_and, Bool.and_false]
  refine ⟨rfl, rfl, rfl, ?_⟩
  intro A hA
  simp only [Bool.or_self, Bool.false_eq_true, if_false, Store.set, eq_self_iff_true,
    if_true, Option.some.injEq] at hA
  rw [← hA]
  simp [Option.or]

/-- C9 witness: the best-effort acceptance theorem applied to the offers
world (owner accepts the 77-amount pending offer). -/
theorem C9_witness :
    (offerPUT offersWorld acceptOfferRequest false).1 =
      { status := 200, success := true, message := some "Offer accepted successfully",
        offerStatus := some OfferStatus.accepted } ∧
    (offerPUT offersWorld acceptOfferRequest false).2.assets = offersWorld.assets ∧
    (offerPUT offersWorld acceptOfferRequest false).2.offers =
      [acceptedOffer77, rejectedOffer60] ∧
    (∀ A, (offerPUT offersWorld acceptOfferRequest true).2.assets "asset1" = some A →
      A.custom_metadata.art_metadata.price = some pendingOffer77.amount) :=
  C9_theorem offersWorld "owner1" "asset1" "OFFER_2" soldOwnedAsset pendingOffer77
    [acceptedOffer77, rejectedOffer60] updatedOffer77
    rfl rfl (by decide) (by decide) (by decide) rfl

/-- An accepted offer returned by `getAcceptedOffer` filtered by buyer always
belongs to that buyer (the query filters on `buyerId`). -/
theorem getAcceptedOffer_buyerId (offers : List Offer) (aid uid : String) (o : Offer)
    (h : getAcceptedOffer offers aid (some uid) = some o) : o.buyerId = uid := by
  unfold getAcceptedOffer at h
  have h1 := List.find?_some h
  simp only [Bool.and_eq_true, beq_iff_eq] at h1
  exact h1.2

/-- C8 (amended): under an authenticated requester with a wallet and an
existing asset, the checkout initiator creates a payment session only when
the asset's status is sale or resale, or the requesting buyer holds an
accepted offer (the stored status is not consulted on the offer path), and
the requester is neither the current owner nor the artist; otherwise it
returns a 400 error and no session. When an accepted offer with a nonzero
amount exists for the requester, the created session's price is the offer's
amount instead of the listed price. -/
theorem C8_theorem (w : World) (uid aid : String)
    (profile : UserProfile) (asset : ContentstackAsset)
    (hane : aid.isEmpty = false)
    (hprof : w.users uid = some profile)
    (hpw : truthyStr profile.walletId = true)
    (hasset : w.assets aid = some asset) :
    ((checkoutPOST w { auth := some uid, artworkId := some aid }).2.isSome = true →
      ((asset.custom_metadata.art_metadata.status = some AssetStatus.sale ∨
        asset.custom_metadata.art_metadata.status = some AssetStatus.resale) ∨
        (getAcceptedOffer w.offers aid (some uid)).isSome = true) ∧
      ownerMatches asset.custom_metadata.art_metadata.current_owner uid = false ∧
      ¬ asset.custom_metadata.art_metadata.artist_uid = some uid) ∧
    (¬(((asset.custom_metadata.art_metadata.status = some AssetStatus.sale ∨
         asset.custom_metadata.art_metadata.status = some AssetStatus.resale) ∨
        (getAcceptedOffer w.offers aid (some uid)).isSome = true) ∧
       ownerMatches asset.custom_metadata.art_metadata.current_owner uid = false ∧
       ¬ asset.custom_metadata.art_metadata.artist_uid = some uid) →
      (checkoutPOST w { auth := some uid, artworkId := some aid }).1.status = 400 ∧
      (checkoutPOST w { auth := some uid, artworkId := some aid }).2 = none) ∧
    (∀ o s, getAcceptedOffer w.offers aid (some uid) = some o → ¬ o.amount = 0 →
      (checkoutPOST w { auth := some uid, artworkId := some aid }).2 = some s →
      s.price = o.amount) := by
  have hta : truthyStr (some aid) = true := by simp [truthyStr, hane]
  rcases hoff : getAcceptedOffer w.offers aid (some uid) with _ | o
  · -- no accepted offer for this buyer
    refine ⟨?_, ?_, ?_⟩
    · intro hsome
      simp only [checkoutPOST, hta, Bool.not_true, Bool.false_eq_true, if_false,
        Option.getD_some, hprof, hpw, hasset, hoff] at hsome
      split at hsome
      · simp at hsome
      · split at hsome
        · simp at hsome
        · split at hsome
          · simp at hsome
          · split at hsome
            · simp at hsome
            · rename_i hp hav hown hart
              simp at hav hown hart
              exact ⟨Or.inl (or_iff_not_imp_left.mpr hav), hown, hart⟩
    · intro hcond
      simp only [checkoutPOST, hta, Bool.not_true, Bool.false_eq_true, if_false,
        Option.getD_some, hprof, hpw, hasset, hoff]
      split
      · exact ⟨rfl, rfl⟩
      · split
        · exact ⟨rfl, rfl⟩
        · split
          · exact ⟨rfl, rfl⟩
          · split
            · exact ⟨rfl, rfl⟩
            · rename_i hp hav hown hart
              simp at hav hown hart
              exact absurd ⟨Or.inl (or_iff_not_imp_left.mpr hav), hown, hart⟩ hcond
    · intro o s ho
      exact absurd ho (by simp)
  · -- the buyer holds an accepted offer
    have hbuy : o.buyerId = uid := getAcceptedOffer_buyerId w.offers aid uid o hoff
    have hbuyb : (o.buyerId == uid) = true := by simp [hbuy]
    refine ⟨?_, ?_, ?_⟩
    · intro hsome
      simp only [checkoutPOST, hta, Bool.not_true, Bool.false_eq_true, if_false,
        Option.getD_some, hprof, hpw, hasset, hoff, hbuyb] at hsome
      split at hsome
      · simp at hsome
      · split at hsome
        · simp at hsome
        · split at hsome
          · simp at hsome
          · split at hsome
            · simp at hsome
            · rename_i hp hav hown hart
              simp only [Bool.not_eq_true] at hown
              exact ⟨Or.inr (by simp), hown, by simpa using hart⟩
    · intro hcond
      simp only [checkoutPOST, hta, Bool.not_true, Bool.false_eq_true, if_false,
        Option.getD_some, hprof, hpw, hasset, hoff, hbuyb]
      split
      · exact ⟨rfl, rfl⟩
      · split
        · exact ⟨rfl, rfl⟩
        · split
          · exact ⟨rfl, rfl⟩
          · split
            · exact ⟨rfl, rfl⟩
            · rename_i hp hav hown hart
              simp only [Bool.not_eq_true] at hown
              exact absurd ⟨Or.inr (by simp), hown, by simpa using hart⟩ hcond
    · intro o2 s ho2 hamt hsess
      obtain rfl : o = o2 := Option.some.inj ho2
      simp only [checkoutPOST, hta, Bool.not_true, Bool.false_eq_true, if_false,
        Option.getD_some, hprof, hpw, hasset, hoff, hbuyb] at hsess
      split at hsess
      · cases hsess
      · split at hsess
        · cases hsess
        · split at hsess
          · cases hsess
          · split at hsess
            · cases hsess
            · simp only [Option.some.injEq] at hsess
              rw [← hsess]
              simp [if_neg (by simpa using hamt), hamt]

/-- C8 witness: the amended checkout theorem applied to the world where the
requester holds an accepted offer of amount 40 on an asset listed at 50. -/
theorem C8_witness :
    ((checkoutPOST nullStatusWorld { auth := some "buyer1", artworkId := some "asset1" }).2.isSome = true →
      ((nullStatusAsset.custom_metadata.art_metadata.status = some AssetStatus.sale ∨
        nullStatusAsset.custom_metadata.art_metadata.status = some AssetStatus.resale) ∨
        (getAcceptedOffer nullStatusWorld.offers "asset1" (some "buyer1")).isSome = true) ∧
      ownerMatches nullStatusAsset.custom_metadata.art_metadata.current_owner "buyer1" = false ∧
      ¬ nullStatusAsset.custom_metadata.art_metadata.artist_uid = some "buyer1") ∧
    (¬(((nullStatusAsset.custom_metadata.art_metadata.status = some AssetStatus.sale ∨
         nullStatusAsset.custom_metadata.art_metadata.status = some AssetStatus.resale) ∨
        (getAcceptedOffer nullStatusWorld.offers "asset1" (some "buyer1")).isSome = true) ∧
       ownerMatches nullStatusAsset.custom_metadata.art_metadata.current_owner "buyer1" = false ∧
       ¬ nullStatusAsset.custom_metadata.art_metadata.artist_uid = some "buyer1") →
      (checkoutPOST nullStatusWorld { auth := some "buyer1", artworkId := some "asset1" }).1.status = 400 ∧
      (checkoutPOST nullStatusWorld { auth := some "buyer1", artworkId := some "asset1" }).2 = none) ∧
    (∀ o s, getAcceptedOffer nullStatusWorld.offers "asset1" (some "buyer1") = some o →
      ¬ o.amount = 0 →
      (checkoutPOST nullStatusWorld { auth := some "buyer1", artworkId := some "asset1" }).2 = some s →
      s.price = o.amount) :=
  C8_theorem nullStatusWorld "buyer1" "asset1" buyerProfile nullStatusAsset
    rfl (by decide) rfl (by decide)

/-- `updateOfferStatus` on an unknown offer id throws. -/
theorem updateOfferStatus_none_eq (offers : List Offer) (oid own : String)
    (d : OfferDecision)
    (hf : offers.find? (fun o => o.id == oid) = none) :
    updateOfferStatus offers oid d own = Except.error "Offer not found" := by
  simp only [updateOfferStatus, hf]

/-- `updateOfferStatus` on an offer that is no longer pending throws. -/
theorem updateOfferStatus_stale_eq (offers : List Offer) (oid own : String)
    (d : OfferDecision) (od : Offer)
    (hf : offers.find? (fun o => o.id == oid) = some od)
    (hs : ¬ od.status = OfferStatus.pending) :
    updateOfferStatus offers oid d own = Except.error "Offer is already settled" := by
  simp only [updateOfferStatus, hf, if_pos hs]

/-- Characterization of a successful acceptance: the target offer becomes
accepted (recording the accepting owner) and every other still-pending offer
on the same asset is rejected. -/
theorem updateOfferStatus_accept_eq (offers : List Offer) (oid own : String) (od : Offer)
    (hf : offers.find? (fun o => o.id == oid) = some od)
    (hs : od.status = OfferStatus.pending) :
    updateOfferStatus offers oid OfferDecision.accepted own =
      Except.ok
        ((offers.map (fun o =>
            if o.id == oid then
              { o with status := OfferStatus.accepted, acceptedBy := some own }
            else o)).map (fun o =>
            if o.assetUid == od.assetUid && o.status == OfferStatus.pending &&
                o.id != oid then
              { o with status := OfferStatus.rejected }
            else o),
         { od with status := OfferStatus.accepted }) := by
  simp only [updateOfferStatus, hf, hs, OfferDecision.toStatus]
  simp

/-- Characterization of a successful rejection: only the target offer's
status flips. -/
theorem updateOfferStatus_reject_eq (offers : List Offer) (oid own : String) (od : Offer)
    (hf : offers.find? (fun o => o.id == oid) = some od)
    (hs : od.status = OfferStatus.pending) :
    updateOfferStatus offers oid OfferDecision.rejected own =
      Except.ok
        (offers.map (fun o =>
          if o.id == oid then
            { o with status := OfferStatus.rejected }
          else o),
         { od with status := OfferStatus.rejected }) := by
  simp only [updateOfferStatus, hf, hs, OfferDecision.toStatus]
  simp

/-- In a list whose every `p`-satisfying element carries the same id, unique
ids bound the `p`-filtered length by one. -/
theorem length_filter_le_one_of_id (offers : List Offer) (p : Offer → Bool) (x : String)
    (hnd : (offers.map Offer.id).Nodup)
    (h : ∀ o ∈ offers, p o = true → o.id = x) :
    (offers.filter p).length ≤ 1 := by
  induction offers with
  | nil => simp
  | cons o rest ih =>
    simp only [List.map_cons, List.nodup_cons] at hnd
    obtain ⟨hnot, hnd'⟩ := hnd
    cases hp : p o with
    | false =>
      rw [List.filter_cons, if_neg (by simp [hp])]
      exact ih hnd' (fun o' ho' hpo' => h o' (List.mem_cons_of_mem o ho') hpo')
    | true =>
      rw [List.filter_cons, if_pos (by simp [hp])]
      have hrest : rest.filter p = [] := by
        rw [List.filter_eq_nil_iff]
        intro o' ho' hpo'
        have h1 : o'.id = x := h o' (List.mem_cons_of_mem o ho') hpo'
        have h2 : o.id = x := h o (List.mem_cons_self o rest) hp
        exact hnot (by rw [h2, ← h1]; exact List.mem_map_of_mem Offer.id ho')
      simp [hrest]

/-- Mapping an id-preserving function over the collection preserves the id
list. -/
theorem map_id_of_preserve (offers : List Offer) (f : Offer → Offer)
    (hf : ∀ o, (f o).id = o.id) :
    (offers.map f).map Offer.id = offers.map Offer.id := by
  induction offers with
  | nil => rfl
  | cons o rest ih => simp [hf, ih]

/-- Mapping a function that does not change whether `p` holds preserves the
`p`-filtered length. -/
theorem filter_length_map_congr (offers : List Offer) (f : Offer → Offer) (p : Offer → Bool)
    (h : ∀ o ∈ offers, p (f o) = p o) :
    ((offers.map f).filter p).length = (offers.filter p).length := by
  induction offers with
  | nil => rfl
  | cons o rest ih =>
    have hh := h o (List.mem_cons_self o rest)
    have ih' := ih (fun o' ho' => h o' (List.mem_cons_of_mem o ho'))
    simp only [List.map_cons, List.filter_cons, hh]
    cases hp : p o <;> simp [hp, ih']

/-- If `p` fails on every image, the filtered mapped list is empty. -/
theorem filter_map_eq_nil (offers : List Offer) (f : Offer → Offer) (p : Offer → Bool)
    (h : ∀ o ∈ offers, p (f o) = false) :
    (offers.map f).filter p = [] := by
  rw [List.filter_eq_nil_iff]
  intro a ha
  obtain ⟨o, ho, rfl⟩ := List.mem_map.mp ha
  simp [h o ho]

/-- Unique ids make `Offer.id` injective on the collection. -/
theorem offers_id_inj (offers : List Offer) (hnd : (offers.map Offer.id).Nodup)
    {x y : Offer} (hx : x ∈ offers) (hy : y ∈ offers) (hxy : x.id = y.id) : x = y :=
  List.inj_on_of_nodup_map hnd hx hy hxy

/-- `BEq` on `OfferStatus` evaluates on constructors. -/
theorem statusBeq_ap : (OfferStatus.accepted == OfferStatus.pending) = false := rfl

/-- `BEq` on `OfferStatus` evaluates on constructors. -/
theorem statusBeq_pa : (OfferStatus.pending == OfferStatus.accepted) = false := rfl

/-- `BEq` on `OfferStatus` evaluates on constructors. -/
theorem statusBeq_rp : (OfferStatus.rejected == OfferStatus.pending) = false := rfl

/-- `BEq` on `OfferStatus` evaluates on constructors. -/
theorem statusBeq_ra : (OfferStatus.rejected == OfferStatus.accepted) = false := rfl

/-- One accept/reject request preserves the offers invariant. -/
theorem applyOfferOp_inv (offers : List Offer) (op : OfferOp)
    (h : OffersInv offers) : OffersInv (applyOfferOp offers op) := by
  obtain ⟨hnd, hI⟩ := h
  cases hf : offers.find? (fun o => o.id == op.offerId) with
  | none =>
    unfold applyOfferOp
    rw [updateOfferStatus_none_eq offers op.offerId op.ownerId op.decision hf]
    exact ⟨hnd, hI⟩
  | some od =>
    by_cases hs : od.status = OfferStatus.pending
    case neg =>
      unfold applyOfferOp
      rw [updateOfferStatus_stale_eq offers op.offerId op.ownerId op.decision od hf hs]
      exact ⟨hnd, hI⟩
    case pos =>
      have hod_mem : od ∈ offers := List.mem_of_find?_eq_some hf
      have hod_id : od.id = op.offerId := by simpa using List.find?_some hf
      cases hdec : op.decision with
      | rejected =>
        unfold applyOfferOp
        rw [hdec, updateOfferStatus_reject_eq offers op.offerId op.ownerId od hf hs]
        have hpres : ∀ o : Offer,
            ((fun o => if o.id == op.offerId then
              { o with status := OfferStatus.rejected } else o) o).id = o.id := by
          intro o
          by_cases h1 : (o.id == op.offerId) = true <;> simp [h1]
        have haccEq : ∀ a, ∀ o ∈ offers,
            isAcceptedOn a ((fun o => if o.id == op.offerId then
              { o with status := OfferStatus.rejected } else o) o) = isAcceptedOn a o := by
          intro a o ho
          by_cases h1 : (o.id == op.offerId) = true
          · have h1' : o.id = op.offerId := by simpa using h1
            have hoeq : o = od :=
              offers_id_inj offers hnd ho hod_mem (h1'.trans hod_id.symm)
            have hs' : o.status = OfferStatus.pending := by rw [hoeq]; exact hs
            simp only [isAcceptedOn, if_pos h1]
            rw [hs']
            cases hb : o.assetUid == a <;> rfl
          · simp [h1]
        have hpendImp : ∀ a, ∀ o ∈ offers, isPendingOn a o = false →
            isPendingOn a ((fun o => if o.id == op.offerId then
              { o with status := OfferStatus.rejected } else o) o) = false := by
          intro a o ho hp
          by_cases h1 : (o.id == op.offerId) = true
          · simp only [isPendingOn, if_pos h1]
            cases hb : o.assetUid == a <;> rfl
          · simpa [h1] using hp
        refine ⟨?_, fun a => ⟨?_, ?_⟩⟩
        · rw [map_id_of_preserve _ _ hpres]
          exact hnd
        · have hlen : (acceptedOn a (offers.map (fun o => if o.id == op.offerId then
              { o with status := OfferStatus.rejected } else o))).length =
              (acceptedOn a offers).length :=
            filter_length_map_congr offers _ (isAcceptedOn a) (haccEq a)
          rw [hlen]
          exact (hI a).1
        · intro hne
          have hlen : (acceptedOn a (offers.map (fun o => if o.id == op.offerId then
              { o with status := OfferStatus.rejected } else o))).length =
              (acceptedOn a offers).length :=
            filter_length_map_congr offers _ (isAcceptedOn a) (haccEq a)
          have horig : acceptedOn a offers ≠ [] := by
            intro hcontra
            apply hne
            rw [← List.length_eq_zero, hlen, hcontra]
            rfl
          have hporig : pendingOn a offers = [] := (hI a).2 horig
          have hall : ∀ o ∈ offers, isPendingOn a o = false := by
            intro o ho
            have := List.filter_eq_nil_iff.mp hporig o ho
            simpa using this
          exact filter_map_eq_nil offers _ (isPendingOn a)
            (fun o ho => hpendImp a o ho (hall o ho))
      | accepted =>
        unfold applyOfferOp
        rw [hdec, updateOfferStatus_accept_eq offers op.offerId op.ownerId od hf hs]
        have hpend_mem : od ∈ pendingOn od.assetUid offers :=
          List.mem_filter.mpr ⟨hod_mem, by simp [isPendingOn, hs]⟩
        have hnoacc : acceptedOn od.assetUid offers = [] := by
          by_contra hne
          have hp0 := (hI od.assetUid).2 hne
          rw [hp0] at hpend_mem
          simp at hpend_mem
        have haccF : ∀ o ∈ offers, isAcceptedOn od.assetUid o = false := by
          intro o ho
          have := List.filter_eq_nil_iff.mp hnoacc o ho
          simpa using this
        have hpres1 : ∀ o : Offer,
            ((fun o => if o.id == op.offerId then
              { o with status := OfferStatus.accepted, acceptedBy := some op.ownerId }
              else o) o).id = o.id := by
          intro o
          by_cases h1 : (o.id == op.offerId) = true <;> simp [h1]
        have hpres2 : ∀ o : Offer,
            ((fun o => if o.assetUid == od.assetUid && o.status == OfferStatus.pending &&
                o.id != op.offerId then { o with status := OfferStatus.rejected } else o) o).id =
              o.id := by
          intro o
          by_cases h2 : (o.assetUid == od.assetUid && o.status == OfferStatus.pending &&
              o.id != op.offerId) = true <;> simp [h2]
        have hcongrAcc : ∀ a, a ≠ od.assetUid → ∀ o ∈ offers,
            isAcceptedOn a ((fun o => if o.id == op.offerId then
              { o with status := OfferStatus.accepted, acceptedBy := some op.ownerId }
              else o) o) = isAcceptedOn a o := by
          intro a haA o ho
          by_cases h1 : (o.id == op.offerId) = true
          · have h1' : o.id = op.offerId := by simpa using h1
            have hoeq : o = od :=
              offers_id_inj offers hnd ho hod_mem (h1'.trans hod_id.symm)
            have hb : (o.assetUid == a) = false := by
              refine beq_eq_false_iff_ne.mpr fun hcc => haA ?_
              rw [← hcc, hoeq]
            simp only [isAcceptedOn, if_pos h1]
            rw [hb]
            rfl
          · simp [h1]
        have hcongrPend : ∀ a, a ≠ od.assetUid → ∀ o ∈ offers,
            isPendingOn a ((fun o => if o.id == op.offerId then
              { o with status := OfferStatus.accepted, acceptedBy := some op.ownerId }
              else o) o) = isPendingOn a o := by
          intro a haA o ho
          by_cases h1 : (o.id == op.offerId) = true
          · have h1' : o.id = op.offerId := by simpa using h1
            have hoeq : o = od :=
              offers_id_inj offers hnd ho hod_mem (h1'.trans hod_id.symm)
            have hb : (o.assetUid == a) = false := by
              refine beq_eq_false_iff_ne.mpr fun hcc => haA ?_
              rw [← hcc, hoeq]
            simp only [isPendingOn, if_pos h1]
            rw [hb]
            rfl
          · simp [h1]
        have hcongr2Acc : ∀ a, a ≠ od.assetUid → ∀ o1 : Offer,
            isAcceptedOn a ((fun o => if o.assetUid == od.assetUid &&
              o.status == OfferStatus.pending && o.id != op.offerId then
              { o with status := OfferStatus.rejected } else o) o1) = isAcceptedOn a o1 := by
          intro a haA o1
          by_cases h2 : (o1.assetUid == od.assetUid && o1.status == OfferStatus.pending &&
              o1.id != op.offerId) = true
          · have hasset : o1.assetUid = od.assetUid := by
              have h3 := h2
              simp only [Bool.and_eq_true, beq_iff_eq] at h3
              exact h3.1.1
            have hb : (o1.assetUid == a) = false := by
              refine beq_eq_false_iff_ne.mpr fun hcc => haA ?_
              rw [← hcc, hasset]
            simp only [isAcceptedOn, if_pos h2]
            rw [hb]
            rfl
          · simp [h2]
        have hcongr2Pend : ∀ a, a ≠ od.assetUid → ∀ o1 : Offer,
            isPendingOn a ((fun o => if o.assetUid == od.assetUid &&
              o.status == OfferStatus.pending && o.id != op.offerId then
              { o with status := OfferStatus.rejected } else o) o1) = isPendingOn a o1 := by
          intro a haA o1
          by_cases h2 : (o1.assetUid == od.assetUid && o1.status == OfferStatus.pending &&
              o1.id != op.offerId) = true
          · have hasset : o1.assetUid = od.assetUid := by
              have h3 := h2
              simp only [Bool.and_eq_true, beq_iff_eq] at h3
              exact h3.1.1
            have hb : (o1.assetUid == a) = false := by
              refine beq_eq_false_iff_ne.mpr fun hcc => haA ?_
              rw [← hcc, hasset]
            simp only [isPendingOn, if_pos h2]
            rw [hb]
            rfl
          · simp [h2]
        refine ⟨?_, fun a => ⟨?_, ?_⟩⟩
        · rw [map_id_of_preserve _ _ hpres2, map_id_of_preserve _ _ hpres1]
          exact hnd
        · by_cases haA : a = od.assetUid
          · subst haA
            apply length_filter_le_one_of_id _ _ op.offerId
            · rw [map_id_of_preserve _ _ hpres2, map_id_of_preserve _ _ hpres1]
              exact hnd
            · intro o2 ho2 hacc2
              obtain ⟨o1, ho1, rfl⟩ := List.mem_map.mp ho2
              obtain ⟨o, ho, rfl⟩ := List.mem_map.mp ho1
              by_cases h1 : (o.id == op.offerId) = true
              · rw [if_pos h1]
                simpa [statusBeq_ap] using h1
              · rw [if_neg h1] at hacc2 ⊢
                by_cases h2 : (o.assetUid == od.assetUid && o.status == OfferStatus.pending &&
                    o.id != op.offerId) = true
                · rw [if_pos h2] at hacc2
                  simp [isAcceptedOn, statusBeq_ra] at hacc2
                · rw [if_neg h2] at hacc2
                  simp [haccF o ho] at hacc2
          · have hlen2 : (acceptedOn a ((offers.map (fun o =>
                if o.id == op.offerId then
                  { o with status := OfferStatus.accepted, acceptedBy := some op.ownerId }
                else o)).map (fun o =>
                if o.assetUid == od.assetUid && o.status == OfferStatus.pending &&
                    o.id != op.offerId then
                  { o with status := OfferStatus.rejected }
                else o))).length =
                (acceptedOn a (offers.map (fun o =>
                  if o.id == op.offerId then
                    { o with status := OfferStatus.accepted, acceptedBy := some op.ownerId }
                  else o))).length :=
              filter_length_map_congr _ _ (isAcceptedOn a) (fun o1 _ => hcongr2Acc a haA o1)
            have hlen1 : (acceptedOn a (offers.map (fun o =>
                if o.id == op.offerId then
                  { o with status := OfferStatus.accepted, acceptedBy := some op.ownerId }
                else o))).length = (acceptedOn a offers).length :=
              filter_length_map_congr _ _ (isAcceptedOn a) (hcongrAcc a haA)
            rw [hlen2, hlen1]
            exact (hI a).1
        · by_cases haA : a = od.assetUid
          · subst haA
            intro _
            apply filter_map_eq_nil
            intro o1 ho1
            obtain ⟨o, ho, rfl⟩ := List.mem_map.mp ho1
            by_cases h1 : (o.id == op.offerId) = true
            · rw [if_pos h1]
              simp [isPendingOn, statusBeq_ap, statusBeq_rp]
            · rw [if_neg h1]
              by_cases h2 : (o.assetUid == od.assetUid && o.status == OfferStatus.pending &&
                  o.id != op.offerId) = true
              · rw [if_pos h2]
                simp [isPendingOn, statusBeq_rp]
              · rw [if_neg h2]
                have hbne : (o.id != op.offerId) = true := by
                  simp only [bne_iff_ne, ne_eq]
                  intro hcc
                  exact h1 (by simp [hcc])
                simp only [isPendingOn]
                cases hb : o.assetUid == od.assetUid
                · rfl
                · cases hbs : o.status == OfferStatus.pending
                  · rfl
                  · exact absurd (by rw [hb, hbs, hbne]; rfl) h2
          · intro hne
            have hlen2 : (acceptedOn a ((offers.map (fun o =>
                if o.id == op.offerId then
                  { o with status := OfferStatus.accepted, acceptedBy := some op.ownerId }
                else o)).map (fun o =>
                if o.assetUid == od.assetUid && o.status == OfferStatus.pending &&
                    o.id != op.offerId then
                  { o with status := OfferStatus.rejected }
                else o))).length =
                (acceptedOn a (offers.map (fun o =>
                  if o.id == op.offerId then
                    { o with status := OfferStatus.accepted, acceptedBy := some op.ownerId }
                  else o))).length :=
              filter_length_map_congr _ _ (isAcceptedOn a) (fun o1 _ => hcongr2Acc a haA o1)
            have hlen1 : (acceptedOn a (offers.map (fun o =>
                if o.id == op.offerId then
                  { o with status := OfferStatus.accepted, acceptedBy := some op.ownerId }
                else o))).length = (acceptedOn a offers).length :=
              filter_length_map_congr _ _ (isAcceptedOn a) (hcongrAcc a haA)
            have horig : acceptedOn a offers ≠ [] := by
              intro hcontra
              apply hne
              rw [← List.length_eq_zero, hlen2, hlen1, hcontra]
              rfl
            have hporig : pendingOn a offers = [] := (hI a).2 horig
            have hall : ∀ o ∈ offers, isPendingOn a o = false := by
              intro o ho
              have := List.filter_eq_nil_iff.mp hporig o ho
              simpa using this
            apply filter_map_eq_nil
            intro o1 ho1
            rw [hcongr2Pend a haA o1]
            obtain ⟨o, ho, rfl⟩ := List.mem_map.mp ho1
            rw [hcongrPend a haA o ho]
            exact hall o ho

/-- Any sequence of `updateOfferStatus` calls preserves the offers
invariant. -/
theorem applyOfferOps_inv (ops : List OfferOp) (offers : List Offer)
    (h : OffersInv offers) : OffersInv (applyOfferOps offers ops) := by
  induction ops generalizing offers with
  | nil => exact h
  | cons op rest ih => exact ih _ (applyOfferOp_inv _ _ h)

/-- C6: starting from a collection of still-pending offers with distinct ids,
after any sequence of accept/reject operations at most one offer per asset
carries status `accepted` — accepting an offer rejects all other pending
offers on the same asset in the same operation, and an offer that is no
longer pending cannot be accepted. -/
theorem C6_theorem (offers : List Offer) (ops : List OfferOp)
    (hnd : (offers.map Offer.id).Nodup)
    (hpend : ∀ o ∈ offers, o.status = OfferStatus.pending)
    (a : String) :
    (acceptedOn a (applyOfferOps offers ops)).length ≤ 1 := by
  have hacc : ∀ x, acceptedOn x offers = [] := by
    intro x
    simp only [acceptedOn, List.filter_eq_nil_iff]
    intro o ho
    simp [isAcceptedOn, hpend o ho, statusBeq_pa]
  have hinv0 : OffersInv offers :=
    ⟨hnd, fun x => ⟨by rw [hacc x]; simp, fun hne => absurd (hacc x) hne⟩⟩
  exact ((applyOfferOps_inv ops offers hinv0).2 a).1

/-- Witness for C6 at a concrete two-offer collection and one accept call. -/
theorem C6_witness :
    (acceptedOn "asset1" (applyOfferOps [pendingOffer77, pendingOffer60]
      [⟨"OFFER_2", OfferDecision.accepted, "owner1"⟩])).length ≤ 1 :=
  C6_theorem [pendingOffer77, pendingOffer60]
    [⟨"OFFER_2", OfferDecision.accepted, "owner1"⟩]
    (by decide) (by decide) "asset1"

end ArtMint
